import Mathlib

set_option linter.unusedVariables false
set_option linter.unnecessarySimpa false
set_option linter.unnecessarySeqFocus false
set_option maxRecDepth 4000
set_option linter.unreachableTactic false
set_option linter.unusedTactic false

/-!
Shallow embedding of the teachbetter evaluation engine.

Sources embedded (JavaScript):
* `EvaluationDimensions` (the later, fully-developed class: dimension
  analyzers, `evaluate`, `evaluateDimension`, readability, syllables);
* `AssignmentAnalyzer` (`src/core/analyzers/AssignmentAnalyzer.js`);
* `FeedbackProcessor` (`processBulkAssignments`, `processSingleAssignment`,
  `analyzeText`, `identifyGrammarIssues`, `analyzeVocabulary`, ...).

Modelling conventions:
* JS numbers are modelled as exact rationals (`ℚ`).  A JS value that is
  non-finite (`NaN` or `±Infinity`, which arise only from division by zero)
  is modelled as `none : Option ℚ`; comparisons against a non-finite value
  follow JS `NaN` comparison semantics (always false) at each use site,
  and the sites where `+Infinity` could behave differently are noted and
  unreachable from the pipeline.
* Strings are processed as `List Char`; regex-based splits and counts are
  implemented as direct scanners with the same observable behaviour as the
  JS regexes on the call sites in the source.
* `async`/`await` is erased (all embedded computations are synchronous and
  pure); `console.log` calls, timestamps (`new Date().toISOString()`) and
  file-system access (`file.buffer` / `file.path`) are I/O and are omitted:
  text extraction falls through to the `file.content || file.text || ''`
  branch, which is the only branch exercised by the in-repo callers.
* The external sentiment lexicon (`new Sentiment()`) is a collaborator with
  contract `analyze(text) -> {score, comparative, positive[], negative[]}`;
  it is passed as an explicit function parameter.
* A JS exception is modelled with `Except String`; `try/catch` becomes a
  `match` on the `Except` value.
-/

/-- JS `\s` whitespace test restricted to the characters the engine can
meet (space, tab, newline, carriage return, form feed, vertical tab). -/
def jsIsWs (c : Char) : Bool :=
  c = ' ' || c = '\t' || c = '\n' || c = '\r' || c = '\x0c' || c = '\x0b'

/-- Sentence-splitting characters of the regex `[.!?]`. -/
def isSentStop (c : Char) : Bool :=
  c = '.' || c = '!' || c = '?'

/-- JS word character `\w`, i.e. `[A-Za-z0-9_]`. -/
def jsIsWordChar (c : Char) : Bool :=
  ('a' ≤ c && c ≤ 'z') || ('A' ≤ c && c ≤ 'Z') || ('0' ≤ c && c ≤ '9') || c = '_'

/-- ASCII letter test (for the `[A-Za-z]` character class). -/
def isAsciiLetter (c : Char) : Bool :=
  ('a' ≤ c && c ≤ 'z') || ('A' ≤ c && c ≤ 'Z')

/-- ASCII digit test (for the `\d` character class). -/
def isAsciiDigit (c : Char) : Bool :=
  '0' ≤ c && c ≤ '9'

/-- Scanner for JS `String.prototype.split` against a regex `[p]+` (one
or more separator characters).  `inSep` records whether the scan is
inside a (maximal) separator run; `acc` is the current token, reversed.
Structural recursion on the input, so it evaluates in the kernel. -/
def splitRunsF (p : Char → Bool) : List Char → Bool → List Char → List (List Char)
  | [], _, acc => [acc.reverse]
  | c :: cs, inSep, acc =>
    if inSep then
      if p c then splitRunsF p cs true []
      else splitRunsF p cs false [c]
    else
      if p c then acc.reverse :: splitRunsF p cs true []
      else splitRunsF p cs false (c :: acc)

/-- JS `text.split(/[p]+/)` (used with `\s` and with `[.!?]`): pieces
between maximal runs of separator characters, leading/trailing empty
pieces included, exactly as in JS. -/
def splitRuns (p : Char → Bool) (l : List Char) : List (List Char) :=
  splitRunsF p l false []

/-- JS `String.prototype.trim`. -/
def jsTrim (l : List Char) : List Char :=
  ((l.dropWhile jsIsWs).reverse.dropWhile jsIsWs).reverse

/-- JS `text.split(/\s+/)` on a string. -/
def jsSplitWs (s : String) : List (List Char) :=
  splitRuns jsIsWs s.data

/-- JS `text.split(/[.!?]+/)` on a string. -/
def jsSplitSent (s : String) : List (List Char) :=
  splitRuns isSentStop s.data

/-- `text.split(/\s+/).filter(w => w.length > 0)`: the word list. -/
def jsWords (s : String) : List (List Char) :=
  (jsSplitWs s).filter (fun w => w.length ≠ 0)

/-- `text.split(/[.!?]+/).filter(s => s.trim().length > 0)`: the
sentence list. -/
def jsSentences (s : String) : List (List Char) :=
  (jsSplitSent s).filter (fun t => (jsTrim t).length ≠ 0)

theorem splitRunsF_sublist (p : Char → Bool) :
    ∀ (l : List Char) (inSep : Bool) (acc : List Char),
      ∀ t ∈ splitRunsF p l inSep acc, ∀ c ∈ t, c ∈ l ∨ c ∈ acc := by
  intro l
  induction l with
  | nil =>
    intro inSep acc t ht c hc
    simp only [splitRunsF, List.mem_singleton] at ht
    subst ht
    right
    simpa using hc
  | cons a as ih =>
    intro inSep acc t ht c hc
    simp only [splitRunsF] at ht
    rcases inSep with _ | _
    · simp only [Bool.false_eq_true, if_false] at ht
      by_cases hp : p a
      · simp only [hp, if_pos] at ht
        rcases List.mem_cons.mp ht with h | h
        · subst h
          right
          simpa using hc
        · rcases ih true [] t h c hc with h' | h'
          · exact Or.inl (List.mem_cons_of_mem _ h')
          · simp at h'
      · simp only [hp, Bool.false_eq_true, if_false] at ht
        rcases ih false (a :: acc) t ht c hc with h' | h'
        · exact Or.inl (List.mem_cons_of_mem _ h')
        · rcases List.mem_cons.mp h' with h'' | h''
          · subst h''; exact Or.inl (List.mem_cons_self _ _)
          · exact Or.inr h''
    · simp only [if_true] at ht
      by_cases hp : p a
      · simp only [hp, if_pos] at ht
        rcases ih true [] t ht c hc with h' | h'
        · exact Or.inl (List.mem_cons_of_mem _ h')
        · simp at h'
      · simp only [hp, Bool.false_eq_true, if_false] at ht
        rcases ih false [a] t ht c hc with h' | h'
        · exact Or.inl (List.mem_cons_of_mem _ h')
        · simp only [List.mem_singleton] at h'
          subst h'
          exact Or.inl (List.mem_cons_self _ _)

/-- Every character of every piece produced by `splitRuns` occurs in the
input. -/
theorem splitRuns_sublist (p : Char → Bool) (l : List Char) :
    ∀ t ∈ splitRuns p l, ∀ c ∈ t, c ∈ l := by
  intro t ht c hc
  rcases splitRunsF_sublist p l false [] t ht c hc with h | h
  · exact h
  · simp at h

theorem splitRunsF_of_no_sep (p : Char → Bool) :
    ∀ l acc : List Char, (∀ c ∈ l, p c = false) →
      splitRunsF p l false acc = [acc.reverse ++ l] := by
  intro l
  induction l with
  | nil => intro acc _; simp [splitRunsF]
  | cons a as ih =>
    intro acc h
    have ha : p a = false := h a (List.mem_cons_self _ _)
    simp only [splitRunsF, ha, Bool.false_eq_true, if_false]
    rw [ih (a :: acc) (fun c hc => h c (List.mem_cons_of_mem _ hc))]
    simp

/-- If no character of the input is a separator, `splitRuns` returns the
whole input as the single piece. -/
theorem splitRuns_of_no_sep (p : Char → Bool) (l : List Char)
    (h : ∀ c ∈ l, p c = false) : splitRuns p l = [l] := by
  simpa [splitRuns] using splitRunsF_of_no_sep p l [] h

theorem splitRunsF_token_not_sep (p : Char → Bool) :
    ∀ (l : List Char) (inSep : Bool) (acc : List Char),
      (∀ c ∈ acc, p c = false) →
      ∀ t ∈ splitRunsF p l inSep acc, ∀ c ∈ t, p c = false := by
  intro l
  induction l with
  | nil =>
    intro inSep acc hacc t ht c hc
    simp only [splitRunsF, List.mem_singleton] at ht
    subst ht
    exact hacc c (by simpa using hc)
  | cons a as ih =>
    intro inSep acc hacc t ht c hc
    simp only [splitRunsF] at ht
    rcases inSep with _ | _
    · simp only [Bool.false_eq_true, if_false] at ht
      by_cases hp : p a
      · simp only [hp, if_pos] at ht
        rcases List.mem_cons.mp ht with h | h
        · subst h
          exact hacc c (by simpa using hc)
        · exact ih true [] (by simp) t h c hc
      · simp only [hp, Bool.false_eq_true, if_false] at ht
        refine ih false (a :: acc) ?_ t ht c hc
        intro d hd
        rcases List.mem_cons.mp hd with h' | h'
        · subst h'; exact Bool.eq_false_iff.mpr hp
        · exact hacc d h'
    · simp only [if_true] at ht
      by_cases hp : p a
      · simp only [hp, if_pos] at ht
        exact ih true [] (by simp) t ht c hc
      · simp only [hp, Bool.false_eq_true, if_false] at ht
        refine ih false [a] ?_ t ht c hc
        intro d hd
        simp only [List.mem_singleton] at hd
        subst hd
        exact Bool.eq_false_iff.mpr hp

/-- Characters of the input that the greedy `\s*` of a `/\n\s*\n/`
separator match would consume after the opening `'\n'`, together with the
remainder of the input after the whole separator.  Returns `none` when no
separator match starts here (i.e. the maximal whitespace run after the
opening newline contains no further `'\n'`). -/
def paraSepTail (cs : List Char) : Option (List Char) :=
  let w := cs.takeWhile jsIsWs
  if '\n' ∈ w then
    -- `\s*` is greedy: the separator ends at the LAST newline of the run;
    -- the whitespace after that newline starts the next piece.
    some ((w.reverse.takeWhile (fun c => c ≠ '\n')).reverse ++ cs.drop w.length)
  else none

theorem paraSepTail_length_le {cs rest : List Char}
    (h : paraSepTail cs = some rest) : rest.length ≤ cs.length := by
  unfold paraSepTail at h
  by_cases hm : '\n' ∈ cs.takeWhile jsIsWs
  · simp only [hm, if_pos, Option.some_inj] at h
    subst h
    have h1 : ((cs.takeWhile jsIsWs).reverse.takeWhile
        (fun c => c ≠ '\n')).length ≤ (cs.takeWhile jsIsWs).length := by
      have := (List.takeWhile_sublist
        (l := (cs.takeWhile jsIsWs).reverse) (fun c => decide (c ≠ '\n'))).length_le
      simpa using this
    have h2 : (cs.takeWhile jsIsWs).length ≤ cs.length :=
      (List.takeWhile_sublist (l := cs) jsIsWs).length_le
    simp only [List.length_append, List.length_reverse, List.length_drop]
    omega
  · simp [hm] at h

theorem paraSepTail_subset {cs rest : List Char}
    (h : paraSepTail cs = some rest) : ∀ c ∈ rest, c ∈ cs := by
  unfold paraSepTail at h
  by_cases hm : '\n' ∈ cs.takeWhile jsIsWs
  · simp only [hm, if_pos, Option.some_inj] at h
    subst h
    intro c hc
    rcases List.mem_append.mp hc with h' | h'
    · have h2 : c ∈ (cs.takeWhile jsIsWs).reverse :=
        (List.takeWhile_sublist (l := (cs.takeWhile jsIsWs).reverse)
          (fun c => decide (c ≠ '\n'))).subset (List.mem_reverse.mp h')
      exact (List.takeWhile_sublist (l := cs) jsIsWs).subset (List.mem_reverse.mp h2)
    · exact List.mem_of_mem_drop h'
  · simp [hm] at h

/-- Scanner for JS `text.split(/\n\s*\n/)` (paragraph boundaries).
Structural recursion on a fuel counter (the wrapper passes
`length + 1`, and every step consumes at least one character, so the
fuel never runs out). -/
def splitParaF : ℕ → List Char → List Char → List (List Char)
  | 0, _, acc => [acc.reverse]
  | _ + 1, [], acc => [acc.reverse]
  | fuel + 1, c :: cs, acc =>
    if c = '\n' then
      if h : (paraSepTail cs).isSome then
        acc.reverse :: splitParaF fuel ((paraSepTail cs).get h) []
      else splitParaF fuel cs (c :: acc)
    else splitParaF fuel cs (c :: acc)

/-- JS `text.split(/\n\s*\n/)` on a string. -/
def jsSplitPara (s : String) : List (List Char) :=
  splitParaF (s.data.length + 1) s.data []

theorem splitParaF_subset :
    ∀ (fuel : ℕ) (l acc : List Char), l.length < fuel →
      ∀ t ∈ splitParaF fuel l acc, ∀ c ∈ t, c ∈ l ∨ c ∈ acc := by
  intro fuel
  induction fuel with
  | zero =>
    intro l acc hl
    omega
  | succ n ihn =>
    intro l acc hl t ht c hc
    match l with
    | [] =>
      simp only [splitParaF, List.mem_singleton] at ht
      subst ht
      right
      simpa using hc
    | a :: as =>
      rw [splitParaF] at ht
      by_cases ha : a = '\n'
      · subst ha
        simp only [if_pos] at ht
        rcases hpt : paraSepTail as with _ | rest
        · simp only [hpt, Option.isSome_none, Bool.false_eq_true, dite_false] at ht
          rcases ihn as ('\n' :: acc) (by simp at hl; omega) t ht c hc with h' | h'
          · exact Or.inl (List.mem_cons_of_mem _ h')
          · rcases List.mem_cons.mp h' with h'' | h''
            · subst h''; exact Or.inl (List.mem_cons_self _ _)
            · exact Or.inr h''
        · simp only [hpt, Option.isSome_some, dite_true, Option.get_some] at ht
          rcases List.mem_cons.mp ht with h | h
          · subst h
            right
            simpa using hc
          · have hlen : rest.length < n := by
              have := paraSepTail_length_le hpt
              simp at hl
              omega
            rcases ihn rest [] hlen t h c hc with h' | h'
            · exact Or.inl (List.mem_cons_of_mem _ (paraSepTail_subset hpt c h'))
            · simp at h'
      · simp only [ha, if_neg, not_false_iff] at ht
        rcases ihn as (a :: acc) (by simp at hl; omega) t ht c hc with h' | h'
        · exact Or.inl (List.mem_cons_of_mem _ h')
        · rcases List.mem_cons.mp h' with h'' | h''
          · subst h''; exact Or.inl (List.mem_cons_self _ _)
          · exact Or.inr h''

/-- Every character of every piece produced by `jsSplitPara` occurs in the
input. -/
theorem jsSplitPara_subset (s : String) :
    ∀ t ∈ jsSplitPara s, ∀ c ∈ t, c ∈ s.data := by
  intro t ht c hc
  rcases splitParaF_subset (s.data.length + 1) s.data [] (Nat.lt_succ_self _) t ht c hc with
    h | h
  · exact h
  · simp at h

/-- Scanner for JS `String.prototype.split` with a literal separator
`s0 :: srest` (non-empty by construction); fuel-structural, the wrapper
passes `length + 1`. -/
def splitLitF (s0 : Char) (srest : List Char) : ℕ → List Char → List Char → List (List Char)
  | 0, _, acc => [acc.reverse]
  | _ + 1, [], acc => [acc.reverse]
  | fuel + 1, c :: cs, acc =>
    if c = s0 && srest.isPrefixOf cs then
      acc.reverse :: splitLitF s0 srest fuel (cs.drop srest.length) []
    else splitLitF s0 srest fuel cs (c :: acc)

/-- JS `text.split(sep)` for a non-empty literal separator string. -/
def splitLit (s0 : Char) (srest : List Char) (l : List Char) : List (List Char) :=
  splitLitF s0 srest (l.length + 1) l []

/-- JS `text.split('\n\n')`. -/
def jsSplitNlNl (s : String) : List (List Char) :=
  splitLit '\n' ['\n'] s.data

/-- JS `haystack.includes(needle)` (substring containment). -/
def hasSub (pat : List Char) : List Char → Bool
  | [] => pat.isEmpty
  | c :: cs => pat.isPrefixOf (c :: cs) || hasSub pat cs

/-- `hasSub` on strings. -/
def strIncludes (s : String) (pat : String) : Bool :=
  hasSub pat.data s.data

/-- JS `String.prototype.toLowerCase` (ASCII model). -/
def jsToLower (l : List Char) : List Char :=
  l.map Char.toLower

/-- JS `String.prototype.toUpperCase` (ASCII model). -/
def jsToUpper (l : List Char) : List Char :=
  l.map Char.toUpper

/-- Fuel-structural scanner for `countAlts`. -/
def countAltsF (pats : List (List Char)) : ℕ → List Char → ℕ
  | 0, _ => 0
  | _ + 1, [] => 0
  | fuel + 1, c :: cs =>
    match pats.find? (fun pat => pat.isPrefixOf (c :: cs)) with
    | some pat => 1 + countAltsF pats fuel ((c :: cs).drop (max 1 pat.length))
    | none => countAltsF pats fuel cs

/-- Count of JS `(text.match(/(alt1|alt2|...)/g) || []).length` for an
ordered list of literal alternatives: scan left to right; at each position
the first alternative that matches is taken and the scan resumes after it.
Case-insensitive uses are pre-lowercased by the caller. -/
def countAlts (pats : List (List Char)) (l : List Char) : ℕ :=
  countAltsF pats (l.length + 1) l

/-- Is there a word boundary (`\b`) between `prev` (the character before
the scan position, `none` at the start of the string) and a word
character? -/
def boundaryBefore : Option Char → Bool
  | none => true
  | some c => !jsIsWordChar c

/-- Is there a word boundary (`\b`) after a word character, given the rest
of the input? -/
def boundaryAfter : List Char → Bool
  | [] => true
  | c :: _ => !jsIsWordChar c

/-- Fuel-structural scanner for `countWordB`. -/
def countWordBF (pat : List Char) : ℕ → Option Char → List Char → ℕ
  | 0, _, _ => 0
  | _ + 1, _, [] => 0
  | fuel + 1, prev, c :: cs =>
    if pat.isPrefixOf (c :: cs) && boundaryBefore prev &&
        boundaryAfter ((c :: cs).drop pat.length) then
      1 + countWordBF pat fuel (some (pat.getLastD c)) ((c :: cs).drop (max 1 pat.length))
    else countWordBF pat fuel (some c) cs

/-- Count of JS `(lowerText.match(new RegExp('\\b' + w + '\\b', 'g')) || []).length`
for a single literal word/phrase `pat` that starts and ends with a word
character (true for every indicator word in the source). -/
def countWordB (pat : List Char) (prev : Option Char) (l : List Char) : ℕ :=
  countWordBF pat (l.length + 1) prev l

/-- Sum over a list of words of `countWordB` (the source builds one
regex per word and sums the match counts). -/
def countWordsB (pats : List String) (l : List Char) : ℕ :=
  (pats.map (fun p => countWordB p.data none l)).sum

/-- JS `Math.round` (round half toward positive infinity), as on `ℚ`
Mathlib's `round` is `⌊x + 1/2⌋`, which matches JS `Math.round`. -/
def jsRound (q : ℚ) : ℤ :=
  round q

/-- JS `Math.round(q * 100) / 100` (round to two decimals). -/
def roundTo2 (q : ℚ) : ℚ :=
  (jsRound (q * 100) : ℚ) / 100

/-- `Math.min(1, Math.max(0, q))` / `Math.max(0, Math.min(1, q))`. -/
def clamp01 (q : ℚ) : ℚ :=
  max 0 (min 1 q)

/-- JS division where the denominator may be zero: `none` models the
non-finite result (`NaN` when the numerator is also zero, `±Infinity`
otherwise). -/
def jsDiv (a b : ℚ) : Option ℚ :=
  if b = 0 then none else some (a / b)

/-- JS `o > c` where `o` may be non-finite: `NaN` comparisons are false.
(Call sites where `o` could be `+Infinity` rather than `NaN` are noted
individually.) -/
def optGtB (o : Option ℚ) (c : ℚ) : Bool :=
  match o with
  | none => false
  | some q => decide (c < q)

/-- JS `o < c` where `o` may be non-finite. -/
def optLtB (o : Option ℚ) (c : ℚ) : Bool :=
  match o with
  | none => false
  | some q => decide (q < c)

/-- `Math.round(o * 100) / 100` propagating a non-finite operand, as JS
does (`Math.round(NaN)` is `NaN`). -/
def optRoundTo2 (o : Option ℚ) : Option ℚ :=
  o.map roundTo2

theorem jsTrim_eq_nil_iff (l : List Char) :
    jsTrim l = [] ↔ ∀ c ∈ l, jsIsWs c = true := by
  unfold jsTrim
  rw [List.reverse_eq_nil_iff, List.dropWhile_eq_nil_iff]
  constructor
  · intro h c hc
    by_cases hws : ∀ x ∈ l.dropWhile jsIsWs, jsIsWs x = true
    · have : l = l.takeWhile jsIsWs ++ l.dropWhile jsIsWs :=
        (List.takeWhile_append_dropWhile jsIsWs l).symm
      rw [this] at hc
      rcases List.mem_append.mp hc with h' | h'
      · exact List.mem_takeWhile_imp h'
      · exact hws c h'
    · push_neg at hws
      obtain ⟨x, hx, hxn⟩ := hws
      exact absurd (h x (List.mem_reverse.mpr hx)) hxn
  · intro h x hx
    exact h x ((List.dropWhile_sublist (l := l) jsIsWs).subset (List.mem_reverse.mp hx))

/-! ## EvaluationDimensions (later version)

Embedding of the `EvaluationDimensions` class that `FeedbackProcessor`
imports: the eight arrow-function dimension analyzers, the weighted
`evaluate`, the legacy `evaluateDimension`, the Flesch-Kincaid
readability, and the syllable counter.  Unused local bindings of the JS
bodies (e.g. a `words` constant that the function never reads) are not
reproduced. -/

/-- A duck-typed JS value stored in a `details` map: a number (possibly
non-finite) or a boolean. -/
inductive JsVal where
  | num : Option ℚ → JsVal
  | bool : Bool → JsVal
deriving DecidableEq

/-- Result of one dimension analyzer: `{score, feedback, details}`. -/
structure DimResult where
  score : ℚ
  feedback : String
  details : List (String × JsVal)
deriving DecidableEq

/-- `['a','e','i','o','u','y']` vowel test of the syllable heuristics. -/
def isVowelY (c : Char) : Bool :=
  ['a', 'e', 'i', 'o', 'u', 'y'].contains c

/-- The `[^laeiouy]` character class of the syllable-stripping regexes. -/
def notLaeiouy (c : Char) : Bool :=
  !(['l', 'a', 'e', 'i', 'o', 'u', 'y'].contains c)

/-- Number of matches of `/[aeiouy]{1,2}/g`: each maximal vowel run of
length `k` contributes `⌈k/2⌉` matches (the quantifier is greedy). -/
def countVowelGroups : List Char → ℕ
  | [] => 0
  | [c] => if isVowelY c then 1 else 0
  | c :: d :: rest =>
    if isVowelY c then
      if isVowelY d then 1 + countVowelGroups rest
      else 1 + countVowelGroups (d :: rest)
    else countVowelGroups (d :: rest)

/-- `EvaluationDimensions.countSyllables` (the version whose first
stripping alternative is the single character class `[^laeiouy]`):
lowercase; length ≤ 3 ⇒ 1; strip one suffix match of
`/(?:[^laeiouy]|ed|[^laeiouy]e)$/` (leftmost match position first, then
alternative order); strip a leading `y`; count vowel groups, at least 1. -/
def countSyllablesED (w : List Char) : ℕ :=
  let l := jsToLower w
  if l.length ≤ 3 then 1
  else
    let n := l.length
    let stripped :=
      if n ≥ 2 ∧ l.drop (n - 2) = ['e', 'd'] then l.take (n - 2)
      else if n ≥ 2 ∧ notLaeiouy (l.getD (n - 2) ' ') ∧ l.drop (n - 1) = ['e'] then
        l.take (n - 2)
      else if notLaeiouy (l.getD (n - 1) ' ') then l.take (n - 1)
      else l
    let noY := if stripped.headD ' ' = 'y' then stripped.tail else stripped
    max 1 (countVowelGroups noY)

/-- `FeedbackProcessor.countSyllables` (the version whose first stripping
alternative is `[^laeiouy]es`): lowercase; length ≤ 3 ⇒ 1; strip one
suffix match of `/(?:[^laeiouy]es|ed|[^laeiouy]e)$/`; strip a leading
`y`; count vowel groups, `matches.length` or 1 when none. -/
def countSyllablesFP (w : List Char) : ℕ :=
  let l := jsToLower w
  if l.length ≤ 3 then 1
  else
    let n := l.length
    let stripped :=
      if n ≥ 3 ∧ notLaeiouy (l.getD (n - 3) ' ') ∧ l.drop (n - 2) = ['e', 's'] then
        l.take (n - 3)
      else if n ≥ 2 ∧ l.drop (n - 2) = ['e', 'd'] then l.take (n - 2)
      else if n ≥ 2 ∧ notLaeiouy (l.getD (n - 2) ' ') ∧ l.drop (n - 1) = ['e'] then
        l.take (n - 2)
      else l
    let noY := if stripped.headD ' ' = 'y' then stripped.tail else stripped
    max 1 (countVowelGroups noY)

/-- Transition-word alternation of `analyzeStructure`
(`/(however|furthermore|moreover|therefore|consequently|in conclusion|in summary)/gi`). -/
def structureTransitions : List (List Char) :=
  ["however", "furthermore", "moreover", "therefore", "consequently",
   "in conclusion", "in summary"].map String.data

/-- `this.analyzeStructure` (arrow function). -/
def analyzeStructure (text ty : String) : DimResult :=
  let paragraphs := (jsSplitNlNl text).filter (fun p => (jsTrim p).length ≠ 0)
  let sentences := jsSentences text
  let avgSentenceLength : ℚ :=
    ((sentences.map (fun s => ((splitRuns jsIsWs s).length : ℚ))).sum) /
      (max 1 sentences.length : ℕ)
  let hasIntroduction :=
    match paragraphs.head? with
    | some p => hasSub "introduction".data (jsToLower p)
    | none => false
  let hasConclusion :=
    match paragraphs.getLast? with
    | some p => hasSub "conclusion".data (jsToLower p)
    | none => false
  let transitionWords := countAlts structureTransitions (jsToLower text.data)
  let score : ℚ := 0.5
    + (if paragraphs.length ≥ 5 then 0.2 else 0)
    + (if 10 < avgSentenceLength ∧ avgSentenceLength < 25 then 0.1 else 0)
    + (if hasIntroduction then 0.1 else 0)
    + (if hasConclusion then 0.1 else 0)
    + (if transitionWords ≥ 3 then 0.1 else 0)
  let score := min 1 (max 0 score)
  let feedback :=
    if score > 0.8 then "Excellent structure with clear organization and flow."
    else if score > 0.6 then "Good structure, but could benefit from better organization."
    else "Needs improvement in organization and structure."
  { score := score
    feedback := feedback
    details := [("paragraphCount", .num (some paragraphs.length)),
                ("avgSentenceLength", .num (some avgSentenceLength)),
                ("hasIntroduction", .bool hasIntroduction),
                ("hasConclusion", .bool hasConclusion),
                ("transitionWords", .num (some transitionWords))] }

/-- Creativity indicator words of `analyzeCreativity` (each counted with
its own `\b…\b` regex on the lowercased text). -/
def creativityWords : List String :=
  ["imagine", "what if", "perhaps", "maybe", "could", "might", "suggest",
   "propose", "innovative", "unique"]

/-- `this.analyzeCreativity` (arrow function).  `words.length` is always
positive (a JS regex split yields at least one piece), so the diversity
ratio is finite. -/
def analyzeCreativity (text ty : String) : DimResult :=
  let words := jsSplitWs text
  let uniqueWords := (words.map jsToLower).dedup
  let creativityCount := countWordsB creativityWords (jsToLower text.data)
  let wordDiversity : ℚ := (uniqueWords.length : ℚ) / (words.length : ℚ)
  let score : ℚ := 0.3 + min 0.3 ((creativityCount : ℚ) * 0.05)
    + min 0.4 (wordDiversity * 2)
  let feedback :=
    if score > 0.7 then "Highly creative and original thinking demonstrated."
    else if score > 0.5 then "Shows some creative elements."
    else "Could benefit from more creative and original ideas."
  { score := score
    feedback := feedback
    details := [("uniqueWordRatio", .num (some wordDiversity)),
                ("creativityWordCount", .num (some creativityCount))] }

/-- The `factualClaims` table of `analyzeAccuracy`: pattern (matched
case-insensitively as a substring), `isTrue` flag, `isFalse` flag. -/
def factualClaims : List (String × Bool × Bool) :=
  [("education increases gdp", true, false),
   ("education reduces poverty", true, false),
   ("education is unimportant", false, true),
   ("education has no benefits", false, true)]

/-- `this.analyzeAccuracy` (arrow function). -/
def analyzeAccuracy (text ty : String) : DimResult :=
  let matched := factualClaims.filter
    (fun c => hasSub c.1.data (jsToLower text.data))
  let totalClaims := matched.length
  let accurateClaims :=
    (matched.filter (fun c => (c.2.1 && !c.2.2) || (!c.2.1 && c.2.2))).length
  let score : ℚ :=
    if totalClaims > 0 then (accurateClaims : ℚ) / (totalClaims : ℚ) else 0.8
  let feedbackList : List String :=
    if score > 0.9 then ["Highly accurate and well-researched content."]
    else if score > 0.7 then
      ["Mostly accurate, but could benefit from more precise information."]
    else if totalClaims > 0 then
      ["Contains some inaccuracies that should be addressed."]
    else []
  { score := score
    feedback :=
      if feedbackList.length > 0 then String.intercalate " " feedbackList
      else "Accuracy assessment not fully applicable."
    details := [("claimsChecked", .num (some totalClaims)),
                ("accurateClaims", .num (some accurateClaims))] }

/-- Line test for `/^#+\s+.+/m` (a heading line): one or more `#`, then a
whitespace character, then at least one further character.  (The JS
`\s+`/`.+` of the multiline regex can in a corner case span the line
break; the pipeline never distinguishes that case.) -/
def isHeadingLine (line : List Char) : Bool :=
  match line with
  | '#' :: _ =>
    let rest := line.dropWhile (fun c => c = '#')
    jsIsWs (rest.headD 'x') && rest.length ≥ 2
  | _ => false

/-- Line test for `/^\s*[-*•]\s+/m` (a bullet line): optional leading
whitespace, a bullet character, a whitespace character. -/
def isBulletLine (line : List Char) : Bool :=
  match line.dropWhile jsIsWs with
  | c :: d :: _ => (c = '-' || c = '*' || c = '•') && jsIsWs d
  | _ => false

/-- `text.split('\n')` into lines. -/
def jsLines (l : List Char) : List (List Char) :=
  splitLit '\n' [] l

/-- `this.analyzePresentation` (arrow function). -/
def analyzePresentation (text ty : String) : DimResult :=
  let sentences := jsSentences text
  let paragraphs := (jsSplitNlNl text).filter (fun p => (jsTrim p).length ≠ 0)
  let hasHeadings := (jsLines text.data).any isHeadingLine
  let hasBulletPoints := (jsLines text.data).any isBulletLine
  let sentenceLengths := sentences.map (fun s => (splitRuns jsIsWs s).length)
  let avgSentenceLength : Option ℚ :=
    jsDiv ((sentenceLengths.map (Nat.cast (R := ℚ))).sum) (sentenceLengths.length : ℚ)
  let shortParagraphs :=
    (paragraphs.filter (fun p => (splitRuns jsIsWs p).length < 15)).length
  let score : ℚ := 0.5
    + (if hasHeadings then 0.1 else 0)
    + (if hasBulletPoints then 0.1 else 0)
    + (if optGtB avgSentenceLength 8 ∧ optLtB avgSentenceLength 25 then 0.2 else 0)
    + (if paragraphs.length ≥ 3 then 0.1 else 0)
    - (if shortParagraphs > 1 then 0.1 * (shortParagraphs : ℚ) else 0)
  let score := min 1 (max 0 score)
  let feedback :=
    if score > 0.8 then
      "Excellent presentation with good use of formatting and structure."
    else if score > 0.6 then
      "Good presentation, but could be enhanced with better formatting."
    else "Needs improvement in presentation and formatting."
  { score := score
    feedback := feedback
    details := [("hasHeadings", .bool hasHeadings),
                ("hasBulletPoints", .bool hasBulletPoints),
                ("avgSentenceLength", .num avgSentenceLength),
                ("paragraphCount", .num (some paragraphs.length)),
                ("shortParagraphs", .num (some shortParagraphs))] }

/-- Critical-thinking indicator words/phrases of `analyzeCriticalThinking`. -/
def criticalThinkingIndicators : List String :=
  ["because", "therefore", "thus", "consequently", "as a result",
   "however", "although", "nevertheless", "on the other hand",
   "suggests", "indicates", "demonstrates", "implies", "shows that",
   "in contrast", "compared to", "similarly", "unlike", "whereas"]

/-- Are there four consecutive ASCII digits (the `\d{4}` alternative of
the evidence regex)? -/
def hasFourDigits : List Char → Bool
  | a :: b :: c :: d :: rest =>
    (isAsciiDigit a && isAsciiDigit b && isAsciiDigit c && isAsciiDigit d) ||
      hasFourDigits (b :: c :: d :: rest)
  | _ => false

/-- `/(research shows|studies indicate|according to|\d{4})/i.test(text)`. -/
def hasEvidenceTest (text : String) : Bool :=
  hasSub "research shows".data (jsToLower text.data) ||
  hasSub "studies indicate".data (jsToLower text.data) ||
  hasSub "according to".data (jsToLower text.data) ||
  hasFourDigits text.data

/-- `this.analyzeCriticalThinking` (arrow function).  The indicator
density is `none` when there are no sentences; in that case the
indicator count is also 0 (an indicator match implies a non-empty
sentence piece), matching the JS `NaN` whose comparisons are false. -/
def analyzeCriticalThinking (text ty : String) : DimResult :=
  let sentences := jsSentences text
  let indicatorCount := countWordsB criticalThinkingIndicators (jsToLower text.data)
  let indicatorDensity : Option ℚ := jsDiv (indicatorCount : ℚ) (sentences.length : ℚ)
  let hasEvidence := hasEvidenceTest text
  let score : ℚ := 0.3
    + (if optGtB indicatorDensity 0.8 then 0.5
       else if optGtB indicatorDensity 0.5 then 0.3
       else if optGtB indicatorDensity 0.2 then 0.1 else 0)
    + (if hasEvidence then 0.2 else 0)
  let score := min 1 (max 0 score)
  let feedback :=
    if score > 0.8 then
      "Excellent critical thinking demonstrated with clear reasoning and evidence."
    else if score > 0.6 then
      "Shows good critical thinking, but could benefit from more analysis."
    else "Needs to develop stronger critical thinking and analytical skills."
  { score := score
    feedback := feedback
    details := [("indicatorCount", .num (some indicatorCount)),
                ("indicatorDensity", .num indicatorDensity),
                ("hasEvidence", .bool hasEvidence)] }

/-- Analysis-indicator alternation of `analyzeDepth`
(`/(because|therefore|suggests|indicates|demonstrates|implies)/gi`). -/
def depthIndicators : List (List Char) :=
  ["because", "therefore", "suggests", "indicates", "demonstrates",
   "implies"].map String.data

/-- `this.analyzeDepth` (arrow function). -/
def analyzeDepth (text ty : String) : DimResult :=
  let sentences := jsSentences text
  let avgSentenceLength : ℚ :=
    ((sentences.map (fun s => ((splitRuns jsIsWs s).length : ℚ))).sum) /
      (max 1 sentences.length : ℕ)
  let analysisIndicators := countAlts depthIndicators (jsToLower text.data)
  -- `analysisIndicators / (sentences.length || 1)`
  let indicatorDensity : ℚ :=
    (analysisIndicators : ℚ) /
      ((if sentences.length = 0 then 1 else sentences.length : ℕ) : ℚ)
  let score : ℚ := 0.5
    + (if avgSentenceLength > 15 then 0.2 else 0)
    + (if indicatorDensity > 0.3 then 0.3
       else if indicatorDensity > 0.1 then 0.15 else 0)
  let feedbackStr :=
    if score > 0.8 then "Excellent depth of analysis with thorough exploration of ideas"
    else if score > 0.6 then "Good analysis, consider exploring some points in more depth"
    else "Try to provide more in-depth analysis and explanation of key points"
  { score := min 1 (max 0 score)
    feedback := feedbackStr
    details := [("avgSentenceLength", .num (some avgSentenceLength)),
                ("analysisIndicators", .num (some analysisIndicators)),
                ("indicatorDensity", .num (some indicatorDensity))] }

/-- The verb alternatives of the passive-voice regex of `analyzeClarity`
(`/(is|are|was|were|be|been|being)\s+[a-z]+ed\b/gi`), in source order. -/
def passiveVerbs : List (List Char) :=
  ["is", "are", "was", "were", "be", "been", "being"].map String.data

/-- Lower-case ASCII letter test (the `[a-z]` class; the scan runs on the
lowercased text, matching the regex's `i` flag). -/
def isLowerAlpha (c : Char) : Bool :=
  'a' ≤ c && c ≤ 'z'

/-- Length of a passive-voice match starting exactly here, if any: a verb
alternative, one or more whitespace characters, a (maximal) letter run of
length ≥ 3 ending in `ed`, followed by a word boundary. -/
def passiveMatchAt (l : List Char) : Option ℕ :=
  (passiveVerbs.filterMap (fun v =>
    if v.isPrefixOf l then
      let rest := l.drop v.length
      let wsRun := rest.takeWhile jsIsWs
      if wsRun.length = 0 then none
      else
        let rest2 := rest.drop wsRun.length
        let run := rest2.takeWhile isLowerAlpha
        if run.length ≥ 3 ∧ run.drop (run.length - 2) = ['e', 'd'] ∧
            boundaryAfter (rest2.drop run.length) then
          some (v.length + wsRun.length + run.length)
        else none
    else none)).head?

/-- Fuel-structural scanner for `countPassive`. -/
def countPassiveF : ℕ → List Char → ℕ
  | 0, _ => 0
  | _ + 1, [] => 0
  | fuel + 1, c :: cs =>
    match passiveMatchAt (c :: cs) with
    | some k => 1 + countPassiveF fuel ((c :: cs).drop (max 1 k))
    | none => countPassiveF fuel cs

/-- Count of passive-voice matches (`text.match(...).length`), scanning
the lowercased text left to right and resuming after each match. -/
def countPassive (l : List Char) : ℕ :=
  countPassiveF (l.length + 1) l

/-- `analyzeClarity` (bound method of the class body). -/
def analyzeClarity (text ty : String) : DimResult :=
  let sentences := jsSentences text
  let words := jsSplitWs text
  let avgSentenceLength : ℚ :=
    ((sentences.map (fun s => ((splitRuns jsIsWs s).length : ℚ))).sum) /
      (max 1 sentences.length : ℕ)
  let complexWords := words.filter (fun w =>
    ((splitRuns isVowelY (jsToLower w)).filter (fun s => s.length ≠ 0)).length ≥ 3)
  let complexityRatio : ℚ := (complexWords.length : ℚ) / (max 1 words.length : ℕ)
  let passiveVoice := countPassive (jsToLower text.data)
  let d1 := avgSentenceLength > 25
  let d2 := complexityRatio > 0.15
  let d3 := passiveVoice > 3
  let score : ℚ := 1 - (if d1 then 0.2 else 0) - (if d2 then 0.2 else 0)
    - (if d3 then 0.1 else 0)
  let score := max 0 (min 1 score)
  let deductions : List String :=
    (if d1 then ["Consider breaking up long sentences for better clarity"] else [])
    ++ (if d2 then ["Some complex words could be simplified for better understanding"]
        else [])
    ++ (if d3 then ["Try to use more active voice for clearer writing"] else [])
  let headline :=
    if score > 0.8 then "Clear and easy to understand"
    else if score > 0.6 then "Generally clear, but could be improved"
    else "Work on improving clarity and readability"
  { score := score
    feedback := String.intercalate "; " (headline :: deductions)
    details := [("avgSentenceLength", .num (some avgSentenceLength)),
                ("complexityRatio", .num (some complexityRatio)),
                ("passiveVoiceCount", .num (some passiveVoice))] }

/-- `analyzeOriginalIdeas` helper (placeholder in the source). -/
def analyzeOriginalIdeas (text : String) : ℚ := 0.7

/-- `analyzePersonalVoice` helper (placeholder in the source). -/
def analyzePersonalVoice (text : String) : ℚ := 0.6

/-- `analyzeOriginality` (bound method of the class body). -/
def analyzeOriginality (text ty : String) : DimResult :=
  let originalIdeas := analyzeOriginalIdeas text
  let fb1 :=
    if originalIdeas > 0.7 then "Shows original thinking and ideas"
    else "Try to develop more original ideas"
  let personalVoice := analyzePersonalVoice text
  let fb2 :=
    if personalVoice > 0.6 then "Good personal voice and style"
    else "Develop your personal voice more"
  let score : ℚ := 0.5 + originalIdeas * 0.5 + personalVoice * 0.5
  { score := min 1 score
    feedback := String.intercalate "; " [fb1, fb2]
    details := [("originalIdeas", .num (some originalIdeas)),
                ("personalVoice", .num (some personalVoice))] }

/-- The name-keyed analyzer registry `this.dimensionAnalyzers`. -/
def dimensionAnalyzers (name : String) : Option (String → String → DimResult) :=
  if name = "structure" then some analyzeStructure
  else if name = "creativity" then some analyzeCreativity
  else if name = "accuracy" then some analyzeAccuracy
  else if name = "presentation" then some analyzePresentation
  else if name = "critical_thinking" then some analyzeCriticalThinking
  else if name = "originality" then some analyzeOriginality
  else if name = "clarity" then some analyzeClarity
  else if name = "depth" then some analyzeDepth
  else none

/-- `evaluateDimension(text, dimension, assignmentType)` (legacy method):
unknown names throw. -/
def evaluateDimension (text dimension ty : String) : Except String DimResult :=
  match dimensionAnalyzers dimension with
  | none => .error ("Unknown evaluation dimension: " ++ dimension)
  | some analyzer => .ok (analyzer text ty)

/-- An entry of `results.strengths` / `results.areasForImprovement`. -/
structure ScoreEntry where
  dimension : String
  score : ℚ
  feedback : String
deriving DecidableEq

/-- The record built by `EvaluationDimensions.evaluate` (success path).
`dimensions` is an insertion-ordered association list. -/
structure EvalResult where
  dimensions : List (String × DimResult)
  overallScore : ℚ
  strengths : List ScoreEntry
  areasForImprovement : List ScoreEntry
  wordCount : ℕ
  sentenceCount : ℕ
  paragraphCount : ℕ
  readabilityScore : ℚ
  feedback : String
deriving DecidableEq

/-- The object returned by the outer `catch` of `evaluate`
(`{error, details, overallScore: 0.5}`). -/
structure EvalErrorReport where
  error : String
  details : String
  overallScore : ℚ
deriving DecidableEq

/-- The dimension/weight table of `evaluate` (note the `criticalThinking`
spelling, which does not occur in the analyzer registry). -/
def evalWeights : List (String × ℚ) :=
  [("structure", 0.20), ("creativity", 0.15), ("accuracy", 0.15),
   ("presentation", 0.10), ("criticalThinking", 0.20), ("clarity", 0.10),
   ("depth", 0.10)]

/-- `dimensionResult.feedback.split('. ')[0] + '.'`. -/
def firstSentenceDot (fb : String) : String :=
  String.mk ((splitLit '.' [' '] fb.data).headD []) ++ "."

/-- `(score * 100).toFixed(0)` for the percentages of the narrative
feedback (scores are non-negative, so `toFixed` agrees with rounding
half up). -/
def pctStr (q : ℚ) : String :=
  toString (jsRound (q * 100))

/-- Loop state of `evaluate`'s dimension loop. -/
structure EvalLoopState where
  dims : List (String × DimResult)
  weightedScoreSum : ℚ
  totalWeight : ℚ
  strengths : List ScoreEntry
  improvements : List ScoreEntry

/-- One iteration of `evaluate`'s `for (const {name, weight} of
dimensions)` loop.  `run name = none` models both a name missing from the
registry (`if (!analyzer) continue`) and an analyzer call that threw (the
inner `catch` only logs). -/
def evalStep (run : String → Option DimResult) (st : EvalLoopState)
    (entry : String × ℚ) : EvalLoopState :=
  match run entry.1 with
  | none => st
  | some r =>
    { dims := st.dims ++ [(entry.1, r)]
      weightedScoreSum := st.weightedScoreSum + r.score * entry.2
      totalWeight := st.totalWeight + entry.2
      strengths :=
        if r.score > 0.7 then
          st.strengths ++ [⟨entry.1, r.score, firstSentenceDot r.feedback⟩]
        else st.strengths
      improvements :=
        if ¬(r.score > 0.7) ∧ r.score < 0.5 then
          st.improvements ++ [⟨entry.1, r.score, firstSentenceDot r.feedback⟩]
        else st.improvements }

/-- `calculateReadability` (normalized Flesch-Kincaid grade level). -/
def calculateReadability (text : String) : ℚ :=
  let sentences := jsSentences text
  let words := jsSplitWs text
  let syllables := (words.map (fun w => (countSyllablesED w : ℚ))).sum
  if sentences.length = 0 ∨ words.length = 0 then 0
  else
    let wordsPerSentence : ℚ := (words.length : ℚ) / (sentences.length : ℚ)
    let syllablesPerWord : ℚ := syllables / (words.length : ℚ)
    let gradeLevel : ℚ := 0.39 * wordsPerSentence + 11.8 * syllablesPerWord - 15.59
    max 0 (min 1 (1 - gradeLevel / 16))

/-- `generateOverallFeedback(results)`. -/
def generateOverallFeedback (overallScore : ℚ) (strengths improvements : List ScoreEntry)
    (wordCount : ℕ) : String :=
  let tier :=
    if overallScore ≥ 0.8 then "Excellent work overall!"
    else if overallScore ≥ 0.6 then "Good work with room for improvement."
    else "Needs significant improvement."
  let renderEntry : ℕ × ScoreEntry → String := fun p =>
    toString (p.1 + 1) ++ ". " ++ p.2.feedback ++ " (" ++ p.2.dimension ++ ": " ++
      pctStr p.2.score ++ "%)"
  let strengthLines :=
    if strengths.length > 0 then "\nStrengths:" :: (strengths.enum.map renderEntry)
    else []
  let improvementLines :=
    if improvements.length > 0 then
      "\nAreas for Improvement:" :: (improvements.enum.map renderEntry)
    else []
  let lengthNote :=
    if wordCount < 150 then
      ["\nNote: The essay is quite short. Consider expanding your ideas to reach at least 150 words."]
    else if wordCount > 1000 then
      ["\nNote: The essay is quite long. Consider being more concise or splitting into multiple sections."]
    else []
  String.intercalate "\n" ([tier] ++ strengthLines ++ improvementLines ++ lengthNote)

/-- The body of `evaluate(text, assignmentType)` with the per-dimension
analyzer outcomes abstracted as `run` (`none` models a missing analyzer
or an analyzer that threw — both continue the loop). -/
def evaluateCore (text : String) (run : String → Option DimResult) : EvalResult :=
  let wordCount := (jsSplitWs text).length
  let sentenceCount := (jsSentences text).length
  let paragraphCount := ((jsSplitNlNl text).filter (fun p => (jsTrim p).length ≠ 0)).length
  let st := evalWeights.foldl (evalStep run) ⟨[], 0, 0, [], []⟩
  let base : ℚ := if st.totalWeight > 0 then st.weightedScoreSum / st.totalWeight else 0
  let lengthPenalty : ℚ := min 1 ((wordCount : ℚ) / 150)
  let overall := max 0 (min 1 (base * lengthPenalty))
  { dimensions := st.dims
    overallScore := overall
    strengths := st.strengths
    areasForImprovement := st.improvements
    wordCount := wordCount
    sentenceCount := sentenceCount
    paragraphCount := paragraphCount
    readabilityScore := calculateReadability text
    feedback := generateOverallFeedback overall st.strengths st.improvements wordCount }

/-- `EvaluationDimensions.evaluate(text, assignmentType)`: every analyzer
in the embedding is a total function, so `run` never fails and the outer
`catch` is unreachable. -/
def evaluate (text ty : String) : EvalResult :=
  evaluateCore text (fun name => (dimensionAnalyzers name).map (fun f => f text ty))

/-- The outer `catch` branch of `evaluate`: any error thrown inside the
body is converted to `{error: 'Failed to evaluate assignment', details:
error.message, overallScore: 0.5}`. -/
def evaluateCatch (errMessage : String) : EvalErrorReport :=
  { error := "Failed to evaluate assignment"
    details := errMessage
    overallScore := 0.5 }

/-! ## AssignmentAnalyzer (`src/core/analyzers/AssignmentAnalyzer.js`)

Each JS sub-analysis returns an object `{score, ...diagnostics}`; only the
`score` field is ever read downstream (by the `calculate*Score` and
`identify*` methods), so the embedding models each sub-analysis as its
score.  The `content` sub-object of the general handler carries no score
and is not read downstream either. -/

/-- A type-specific analysis `{type, ..., overallScore, strengths,
improvements}`; the per-check sub-scores are kept as an ordered
association list. -/
structure TypeAnalysis where
  type : String
  subScores : List (String × ℚ)
  overallScore : ℚ
  strengths : List String
  improvements : List String
deriving DecidableEq

/-- Count of the listed words/phrases that occur in the lowercased text
(`words.filter(w => lowerText.includes(w)).length`). -/
def countIncluded (words : List String) (lower : List Char) : ℕ :=
  (words.filter (fun w => hasSub w.data lower)).length

/-- Scanner for JS `text.split(/\d+\./)`: a separator is a maximal digit
run immediately followed by `'.'`; fuel-structural. -/
def splitDigitDotF : ℕ → List Char → List Char → List (List Char)
  | 0, _, acc => [acc.reverse]
  | _ + 1, [], acc => [acc.reverse]
  | fuel + 1, c :: cs, acc =>
    if isAsciiDigit c then
      match cs.drop (cs.takeWhile isAsciiDigit).length with
      | '.' :: rest2 => acc.reverse :: splitDigitDotF fuel rest2 []
      | _ =>
        splitDigitDotF fuel (cs.drop (cs.takeWhile isAsciiDigit).length)
          ((cs.takeWhile isAsciiDigit).reverse ++ c :: acc)
    else splitDigitDotF fuel cs (c :: acc)

/-- JS `text.split(/\d+\./)`. -/
def splitDigitDot (l : List Char) : List (List Char) :=
  splitDigitDotF (l.length + 1) l []

/-- `countQuestions`: `(text.match(/\d+\./g) || []).length` (one match per
split separator). -/
def countQuestions (text : String) : ℕ :=
  (splitDigitDot text.data).length - 1

/-- `hasIntroduction(paragraph)` helper (keywords or length > 50). -/
def hasIntroductionP (paragraph : Option (List Char)) : Bool :=
  match paragraph with
  | none => false
  | some p =>
    (["introduction", "overview", "purpose", "aim", "goal"].any
      (fun k => hasSub k.data (jsToLower p))) || p.length > 50

/-- `hasConclusion(paragraph)` helper (keywords or length > 30). -/
def hasConclusionP (paragraph : Option (List Char)) : Bool :=
  match paragraph with
  | none => false
  | some p =>
    (["conclusion", "summary", "finally", "overall", "in conclusion"].any
      (fun k => hasSub k.data (jsToLower p))) || p.length > 30

/-- `analyzeVocabulary(text)` of `AssignmentAnalyzer` (diversity over the
unfiltered `\s+` split; the split always has at least one piece, so the
ratio is finite). -/
def aaVocabularyDiversity (text : String) : ℚ :=
  let words := jsSplitWs text
  ((words.map jsToLower).dedup.length : ℚ) / (words.length : ℚ)

/-- `analyzeEssayStructure(text)` score. -/
def analyzeEssayStructure (text : String) : ℚ :=
  let paragraphs := (jsSplitPara text).filter (fun p => (jsTrim p).length ≠ 0)
  let hasIntroduction := hasIntroductionP paragraphs.head?
  let hasBody := paragraphs.length ≥ 3
  let hasConclusion := hasConclusionP paragraphs.getLast?
  (if hasIntroduction then 0.4 else 0) + (if hasBody then 0.4 else 0) +
    (if hasConclusion then 0.2 else 0)

/-- `analyzeArgumentation(text)` score. -/
def analyzeArgumentation (text : String) : ℚ :=
  let lower := jsToLower text.data
  let argumentCount :=
    countIncluded ["argue", "claim", "assert", "maintain", "contend", "propose"] lower
  let evidenceCount :=
    countIncluded ["evidence", "proof", "data", "research", "study", "findings"] lower
  let counterCount :=
    countIncluded ["however", "although", "despite", "nevertheless"] lower
  min 1 (((argumentCount + evidenceCount + counterCount : ℕ) : ℚ) / 5)

/-- The five evidence phrase regexes of `analyzeEvidence` (each `/gi`,
counted separately and summed). -/
def evidencePhrases : List String :=
  ["according to", "research shows", "studies indicate", "data suggests",
   "findings show"]

/-- `analyzeEvidence(text)` score. -/
def analyzeEvidence (text : String) : ℚ :=
  let evidenceCount :=
    (evidencePhrases.map (fun p => countAlts [p.data] (jsToLower text.data))).sum
  min 1 ((evidenceCount : ℚ) / 3)

/-- `calculateStyleScore`'s length component `Math.max(0, 1 -
Math.abs(avg - 20) / 20)`; `none` models the `+Infinity` average of a
text with words but no sentence (the result is then 0, as in JS). -/
def styleLengthScore (avg : Option ℚ) : ℚ :=
  match avg with
  | none => 0
  | some a => max 0 (1 - |a - 20| / 20)

/-- `analyzeWritingStyle(text)` score (via `calculateStyleScore`). -/
def analyzeWritingStyle (text : String) : ℚ :=
  let sentences := jsSentences text
  let avgWordsPerSentence : Option ℚ :=
    jsDiv ((jsSplitWs text).length : ℚ) (sentences.length : ℚ)
  let vocabScore := min 1 (aaVocabularyDiversity text * 2)
  (styleLengthScore avgWordsPerSentence + vocabScore) / 2

/-- `identifyThesis(text)` score. -/
def identifyThesis (text : String) : ℚ :=
  let firstParagraph := (jsSplitPara text).headD []
  let hasThesis := ["thesis", "main point", "argument", "claim", "position"].any
    (fun k => hasSub k.data (jsToLower firstParagraph))
  if hasThesis then 0.8 else 0.3

/-- `analyzeConclusion(text)` score.  When the filtered paragraph list is
empty the JS reads `undefined` and would throw; the orchestrator never
reaches this analyzer with whitespace-only text, and the embedding uses
the empty paragraph in that (unreachable) case. -/
def analyzeConclusion (text : String) : ℚ :=
  let paragraphs := (jsSplitPara text).filter (fun p => (jsTrim p).length ≠ 0)
  let conclusion := paragraphs.getLastD []
  let hasConclusion := ["conclusion", "summary", "finally", "overall", "in conclusion"].any
    (fun k => hasSub k.data (jsToLower conclusion))
  if hasConclusion then 0.8 else 0.4

/-- `analyzeEssay(text)`: sub-scores, weighted overall
(`calculateEssayScore`), strengths and improvements. -/
def analyzeEssay (text : String) : TypeAnalysis :=
  let structureScore := analyzeEssayStructure text
  let argumentation := analyzeArgumentation text
  let evidence := analyzeEvidence text
  let style := analyzeWritingStyle text
  let thesis := identifyThesis text
  let conclusion := analyzeConclusion text
  let overall := roundTo2 (structureScore * 0.25 + argumentation * 0.25 + evidence * 0.20 +
    style * 0.15 + thesis * 0.10 + conclusion * 0.05)
  { type := "essay"
    subScores := [("structure", structureScore), ("argumentation", argumentation),
                  ("evidence", evidence), ("style", style), ("thesis", thesis),
                  ("conclusion", conclusion)]
    overallScore := overall
    strengths :=
      (if structureScore > 0.7 then ["Well-structured essay"] else []) ++
      (if argumentation > 0.6 then ["Strong argumentation"] else []) ++
      (if evidence > 0.6 then ["Good use of evidence"] else []) ++
      (if style > 0.7 then ["Clear writing style"] else []) ++
      (if thesis > 0.7 then ["Clear thesis statement"] else [])
    improvements :=
      (if structureScore < 0.6 then ["Improve essay structure"] else []) ++
      (if argumentation < 0.5 then ["Strengthen argumentation"] else []) ++
      (if evidence < 0.5 then ["Add more evidence"] else []) ++
      (if style < 0.6 then ["Improve writing style"] else []) ++
      (if thesis < 0.6 then ["Clarify thesis statement"] else []) }

/-- `analyzeCompleteness(text)` score. -/
def analyzeCompleteness (text : String) : ℚ :=
  let questions := (splitDigitDot text.data).filter (fun q => (jsTrim q).length ≠ 0)
  let answeredQuestions := questions.filter (fun q => (jsTrim q).length > 10)
  (answeredQuestions.length : ℚ) / (max 1 questions.length : ℕ)

/-- `analyzeUnderstanding(text)` score. -/
def analyzeUnderstanding (text : String) : ℚ :=
  let understandingCount :=
    countIncluded ["because", "therefore", "since", "due to", "as a result"]
      (jsToLower text.data)
  min 1 ((understandingCount : ℚ) / 3)

/-- `analyzeEffort(text)` score.  The word count of the unfiltered `\s+`
split is at least 1, so a zero question count gives `+Infinity` words
per answer in JS and a score of `min(1, Infinity) = 1`. -/
def analyzeEffort (text : String) : ℚ :=
  let wordCount := (jsSplitWs text).length
  match jsDiv (wordCount : ℚ) (countQuestions text : ℚ) with
  | none => 1
  | some avgWordsPerAnswer => min 1 (avgWordsPerAnswer / 20)

/-- `analyzeWorksheetOrganization(text)` score (`/\d+\./.test(text)` and
`text.split(/\d+\./).length > 1` are both equivalent to the presence of a
match). -/
def analyzeWorksheetOrganization (text : String) : ℚ :=
  let hasNumbering := countQuestions text > 0
  let hasClearAnswers := (splitDigitDot text.data).length > 1
  (if hasNumbering then 0.5 else 0) + (if hasClearAnswers then 0.5 else 0)

/-- `analyzeWorksheet(text)`. -/
def analyzeWorksheet (text : String) : TypeAnalysis :=
  let completeness := analyzeCompleteness text
  let accuracy : ℚ := 0.8
  let understanding := analyzeUnderstanding text
  let effort := analyzeEffort text
  let organization := analyzeWorksheetOrganization text
  let overall := roundTo2 (completeness * 0.30 + accuracy * 0.25 +
    understanding * 0.20 + effort * 0.15 + organization * 0.10)
  { type := "worksheet"
    subScores := [("completeness", completeness), ("accuracy", accuracy),
                  ("understanding", understanding), ("effort", effort),
                  ("organization", organization)]
    overallScore := overall
    strengths :=
      (if completeness > 0.8 then ["Complete responses"] else []) ++
      (if understanding > 0.6 then ["Good understanding"] else []) ++
      (if effort > 0.7 then ["Good effort"] else []) ++
      (if organization > 0.7 then ["Well organized"] else [])
    improvements :=
      (if completeness < 0.6 then ["Answer all questions completely"] else []) ++
      (if understanding < 0.5 then ["Show more understanding"] else []) ++
      (if effort < 0.6 then ["Provide more detailed answers"] else []) ++
      (if organization < 0.6 then ["Improve organization"] else []) }

/-- `analyzeReportStructure(text)` score (fraction of the five section
names present). -/
def analyzeReportStructure (text : String) : ℚ :=
  let sections := ["introduction", "methodology", "results", "discussion", "conclusion"]
  let foundSections := countIncluded sections (jsToLower text.data)
  (foundSections : ℚ) / (sections.length : ℚ)

/-- `analyzeResearch(text)` score. -/
def analyzeResearch (text : String) : ℚ :=
  let researchCount :=
    countIncluded ["research", "study", "investigation", "analysis", "examination"]
      (jsToLower text.data)
  min 1 ((researchCount : ℚ) / 3)

/-- Length of a citation match at this position of the lowercased text, if
any: `\[[\d]+\]`, then `\(\w+\s+\d{4}\)`, then `et al\.` (alternation
order of `/\[[\d]+\]|\(\w+\s+\d{4}\)|et al\./gi`). -/
def citationMatchAt (l : List Char) : Option ℕ :=
  let alt1 : Option ℕ :=
    match l with
    | '[' :: rest =>
      let run := rest.takeWhile isAsciiDigit
      if run.length ≥ 1 ∧ (rest.drop run.length).headD ' ' = ']' then
        some (run.length + 2)
      else none
    | _ => none
  let alt2 : Option ℕ :=
    match l with
    | '(' :: rest =>
      let wrun := rest.takeWhile jsIsWordChar
      let rest2 := rest.drop wrun.length
      let wsrun := rest2.takeWhile jsIsWs
      let rest3 := rest2.drop wsrun.length
      if wrun.length ≥ 1 ∧ wsrun.length ≥ 1 ∧ (rest3.take 4).length = 4 ∧
          (rest3.take 4).all isAsciiDigit ∧ (rest3.drop 4).headD ' ' = ')' then
        some (1 + wrun.length + wsrun.length + 5)
      else none
    | _ => none
  let alt3 : Option ℕ :=
    if "et al.".data.isPrefixOf l then some 6 else none
  (alt1.or (alt2.or alt3))

/-- Number of citation matches, scanning left to right (fuel-structural). -/
def countCitationsF : ℕ → List Char → ℕ
  | 0, _ => 0
  | _ + 1, [] => 0
  | fuel + 1, c :: cs =>
    match citationMatchAt (c :: cs) with
    | some k => 1 + countCitationsF fuel ((c :: cs).drop (max 1 k))
    | none => countCitationsF fuel cs

/-- `analyzeCitations(text)` score. -/
def analyzeCitations (text : String) : ℚ :=
  min 1 ((countCitationsF ((jsToLower text.data).length + 1) (jsToLower text.data) : ℚ) / 5)

/-- `analyzeObjectivity(text)` score. -/
def analyzeObjectivity (text : String) : ℚ :=
  let lower := jsToLower text.data
  let subjectiveCount :=
    countIncluded ["i think", "i believe", "i feel", "in my opinion"] lower
  let objectiveCount :=
    countIncluded ["data shows", "research indicates", "studies suggest"] lower
  min 1 ((objectiveCount : ℚ) / ((subjectiveCount + objectiveCount + 1 : ℕ) : ℚ))

/-- `analyzeMethodology(text)` score. -/
def analyzeMethodology (text : String) : ℚ :=
  let methodCount :=
    countIncluded ["method", "procedure", "process", "approach", "technique"]
      (jsToLower text.data)
  min 1 ((methodCount : ℚ) / 2)

/-- `analyzeFindings(text)` score. -/
def analyzeFindings (text : String) : ℚ :=
  let findingCount :=
    countIncluded ["found", "discovered", "revealed", "showed", "indicated"]
      (jsToLower text.data)
  min 1 ((findingCount : ℚ) / 2)

/-- `analyzeReport(text)`. -/
def analyzeReport (text : String) : TypeAnalysis :=
  let structureScore := analyzeReportStructure text
  let research := analyzeResearch text
  let citations := analyzeCitations text
  let objectivity := analyzeObjectivity text
  let methodology := analyzeMethodology text
  let findings := analyzeFindings text
  let overall := roundTo2 (structureScore * 0.20 + research * 0.20 + citations * 0.15 +
    objectivity * 0.15 + methodology * 0.15 + findings * 0.15)
  { type := "report"
    subScores := [("structure", structureScore), ("research", research),
                  ("citations", citations), ("objectivity", objectivity),
                  ("methodology", methodology), ("findings", findings)]
    overallScore := overall
    strengths :=
      (if structureScore > 0.7 then ["Well-structured report"] else []) ++
      (if research > 0.6 then ["Good research foundation"] else []) ++
      (if citations > 0.6 then ["Proper citations"] else []) ++
      (if objectivity > 0.7 then ["Objective presentation"] else [])
    improvements :=
      (if structureScore < 0.6 then ["Improve report structure"] else []) ++
      (if research < 0.5 then ["Strengthen research"] else []) ++
      (if citations < 0.5 then ["Add more citations"] else []) ++
      (if objectivity < 0.6 then ["Maintain objectivity"] else []) }

/-- `analyzeCreativity(text)` score of `AssignmentAnalyzer` (distinct from
the dimension analyzer of the same JS name). -/
def aaCreativity (text : String) : ℚ :=
  let creativeCount :=
    countIncluded ["imagine", "creative", "unique", "original", "innovative"]
      (jsToLower text.data)
  min 1 ((creativeCount : ℚ) / 3)

/-- `analyzeVoice(text)` score (the unfiltered `\s+` split has at least
one piece, so the ratio is finite). -/
def analyzeVoice (text : String) : ℚ :=
  let words := jsSplitWs text
  let personalCount := (words.filter (fun w =>
    ["i", "my", "me", "we", "our"].any (fun p => jsToLower w = p.data))).length
  min 1 ((personalCount : ℚ) / (words.length : ℚ) * 10)

/-- `analyzeImagery(text)` score. -/
def analyzeImagery (text : String) : ℚ :=
  let sensoryCount :=
    countIncluded ["saw", "heard", "felt", "smelled", "tasted", "bright", "loud",
      "soft", "sweet"] (jsToLower text.data)
  min 1 ((sensoryCount : ℚ) / 5)

/-- `analyzeDialogue(text)` score: `/"[^"]*"/g` matches pair up the quote
characters, so the match count is `⌊quotes / 2⌋`. -/
def analyzeDialogue (text : String) : ℚ :=
  let count := (text.data.filter (fun c => c = '"')).length / 2
  min 1 ((count : ℚ) / 3)

/-- `analyzePlot(text)` score. -/
def analyzePlot (text : String) : ℚ :=
  let plotCount :=
    countIncluded ["beginning", "middle", "end", "conflict", "resolution", "climax"]
      (jsToLower text.data)
  min 1 ((plotCount : ℚ) / 3)

/-- `analyzeCharacter(text)` score. -/
def analyzeCharacter (text : String) : ℚ :=
  let characterCount :=
    countIncluded ["character", "protagonist", "hero", "villain", "personality"]
      (jsToLower text.data)
  min 1 ((characterCount : ℚ) / 2)

/-- `analyzeCreative(text)`. -/
def analyzeCreative (text : String) : TypeAnalysis :=
  let creativity := aaCreativity text
  let voice := analyzeVoice text
  let imagery := analyzeImagery text
  let dialogue := analyzeDialogue text
  let plot := analyzePlot text
  let character := analyzeCharacter text
  let overall := roundTo2 (creativity * 0.25 + voice * 0.20 + imagery * 0.20 +
    dialogue * 0.15 + plot * 0.10 + character * 0.10)
  { type := "creative"
    subScores := [("creativity", creativity), ("voice", voice), ("imagery", imagery),
                  ("dialogue", dialogue), ("plot", plot), ("character", character)]
    overallScore := overall
    strengths :=
      (if creativity > 0.6 then ["Creative expression"] else []) ++
      (if voice > 0.6 then ["Strong personal voice"] else []) ++
      (if imagery > 0.6 then ["Good use of imagery"] else []) ++
      (if dialogue > 0.6 then ["Effective dialogue"] else [])
    improvements :=
      (if creativity < 0.5 then ["Develop more creativity"] else []) ++
      (if voice < 0.5 then ["Strengthen personal voice"] else []) ++
      (if imagery < 0.5 then ["Add more sensory details"] else []) ++
      (if dialogue < 0.5 then ["Include more dialogue"] else []) }

/-- `analyzeCriticalThinking(text)` score of `AssignmentAnalyzer`. -/
def aaCriticalThinking (text : String) : ℚ :=
  let criticalCount :=
    countIncluded ["analyze", "evaluate", "critique", "examine", "assess", "compare"]
      (jsToLower text.data)
  min 1 ((criticalCount : ℚ) / 3)

/-- `analyzeInterpretation(text)` score. -/
def analyzeInterpretation (text : String) : ℚ :=
  let interpretCount :=
    countIncluded ["interpret", "understand", "meaning", "significance", "imply"]
      (jsToLower text.data)
  min 1 ((interpretCount : ℚ) / 2)

/-- `analyzeEvaluation(text)` score. -/
def analyzeEvaluation (text : String) : ℚ :=
  let evalCount :=
    countIncluded ["evaluate", "judge", "assess", "rate", "value", "worth"]
      (jsToLower text.data)
  min 1 ((evalCount : ℚ) / 2)

/-- `analyzeSynthesis(text)` score. -/
def analyzeSynthesis (text : String) : ℚ :=
  let synthesisCount :=
    countIncluded ["synthesize", "combine", "integrate", "merge", "unify"]
      (jsToLower text.data)
  min 1 ((synthesisCount : ℚ) / 2)

/-- `analyzeAnalysis(text)`. -/
def analyzeAnalysis (text : String) : TypeAnalysis :=
  let criticalThinking := aaCriticalThinking text
  let evidence := analyzeEvidence text
  let interpretation := analyzeInterpretation text
  let evaluation := analyzeEvaluation text
  let synthesis := analyzeSynthesis text
  let argumentation := analyzeArgumentation text
  let overall := roundTo2 (criticalThinking * 0.25 + evidence * 0.20 +
    interpretation * 0.20 + evaluation * 0.15 + synthesis * 0.10 +
    argumentation * 0.10)
  { type := "analysis"
    subScores := [("criticalThinking", criticalThinking), ("evidence", evidence),
                  ("interpretation", interpretation), ("evaluation", evaluation),
                  ("synthesis", synthesis), ("argumentation", argumentation)]
    overallScore := overall
    strengths :=
      (if criticalThinking > 0.6 then ["Strong critical thinking"] else []) ++
      (if evidence > 0.6 then ["Good use of evidence"] else []) ++
      (if interpretation > 0.6 then ["Good interpretation"] else []) ++
      (if evaluation > 0.6 then ["Effective evaluation"] else [])
    improvements :=
      (if criticalThinking < 0.5 then ["Develop critical thinking"] else []) ++
      (if evidence < 0.5 then ["Use more evidence"] else []) ++
      (if interpretation < 0.5 then ["Improve interpretation"] else []) ++
      (if evaluation < 0.5 then ["Strengthen evaluation"] else []) }

/-- `analyzeGeneralOrganization(text)` score. -/
def analyzeGeneralOrganization (text : String) : ℚ :=
  let paragraphs := (jsSplitPara text).filter (fun p => (jsTrim p).length ≠ 0)
  min 1 ((paragraphs.length : ℚ) / 3)

/-- `analyzeClarity(text)` of `AssignmentAnalyzer` (a bare number, not an
object).  A text with words but no sentence gives `+Infinity` average
words per sentence in JS and hence a clarity of 0; the unfiltered word
split is never empty, so `NaN` cannot arise. -/
def aaClarity (text : String) : ℚ :=
  let sentences := jsSentences text
  match jsDiv ((jsSplitWs text).length : ℚ) (sentences.length : ℚ) with
  | none => 0
  | some avgWordsPerSentence => max 0 (1 - (avgWordsPerSentence - 15) / 20)

/-- `analyzeDepth(text)` of `AssignmentAnalyzer` (a bare number). -/
def aaDepth (text : String) : ℚ :=
  let depthCount :=
    countIncluded ["specifically", "in detail", "thoroughly", "comprehensive"]
      (jsToLower text.data)
  min 1 ((depthCount : ℚ) / 2)

/-- `analyzeGeneral(text)`: fixed `overallScore: 0.7`, fixed strengths and
improvements; always succeeds.  (The scoreless `content` counts object is
not modelled; nothing reads it.) -/
def analyzeGeneral (text : String) : TypeAnalysis :=
  { type := "general"
    subScores := [("organization", analyzeGeneralOrganization text),
                  ("clarity", aaClarity text), ("depth", aaDepth text)]
    overallScore := 0.7
    strengths := ["Good effort"]
    improvements := ["Continue developing your ideas"] }

/-- The `assignmentHandlers` registry. -/
def assignmentHandlers (ty : String) : Option (String → TypeAnalysis) :=
  if ty = "essay" then some analyzeEssay
  else if ty = "worksheet" then some analyzeWorksheet
  else if ty = "report" then some analyzeReport
  else if ty = "creative" then some analyzeCreative
  else if ty = "analysis" then some analyzeAnalysis
  else if ty = "general" then some analyzeGeneral
  else none

/-- `analyzeByType(text, assignmentType)`: dispatch with fallback to the
general handler (`this.assignmentHandlers[assignmentType] ||
this.assignmentHandlers.general`). -/
def analyzeByType (text ty : String) : TypeAnalysis :=
  match assignmentHandlers ty with
  | some handler => handler text
  | none => analyzeGeneral text

/-! ## FeedbackProcessor

`processBulkAssignments`, `processSingleAssignment`, `analyzeText`,
`identifyGrammarIssues`, `analyzeVocabulary`, `extractStudentName`,
`generateFeedbackSuggestions`.  The sentiment collaborator is an explicit
parameter; timestamps and console output are I/O and are omitted. -/

/-- Result of the external sentiment collaborator
(`analyze(text) -> {score, comparative, positive[], negative[]}`). -/
structure SentimentResult where
  score : ℤ
  comparative : ℚ
  positive : List String
  negative : List String
deriving DecidableEq

/-- One grammar issue `{type, sentence, issue, suggestion}`;
`sentence` is the 1-based index of the piece in the unfiltered
`[.!?]+` split. -/
structure GrammarIssue where
  type : String
  sentence : ℕ
  issue : String
  suggestion : String
deriving DecidableEq

/-- Capitalization test of `identifyGrammarIssues`:
`trimmed[0] !== trimmed[0].toUpperCase()` (ASCII model). -/
def firstCharNotCapitalized (trimmed : List Char) : Bool :=
  (trimmed.headD ' ').toUpper ≠ trimmed.headD ' '

/-- The issues contributed by one sentence piece (1-based index `idx`):
an empty trimmed piece contributes none; otherwise a capitalization
issue when the first character differs from its uppercase, then a run-on
issue when the piece has more than 30 whitespace-delimited tokens. -/
def sentenceIssues (idx : ℕ) (s : List Char) : List GrammarIssue :=
  let trimmed := jsTrim s
  if trimmed.length = 0 then []
  else
    (if firstCharNotCapitalized trimmed then
      [{ type := "capitalization", sentence := idx,
         issue := "Sentence should start with a capital letter",
         suggestion := "Capitalize the first letter of the sentence" }]
    else []) ++
    (if (splitRuns jsIsWs trimmed).length > 30 then
      [{ type := "run-on", sentence := idx,
         issue := "Sentence may be too long",
         suggestion := "Consider breaking into shorter sentences" }]
    else [])

/-- `identifyGrammarIssues(text)`: `text.split(/[.!?]+/).forEach(...)`
pushing issues in sentence order. -/
def identifyGrammarIssues (text : String) : List GrammarIssue :=
  (jsSplitSent text).enum.foldl (fun acc p => acc ++ sentenceIssues (p.1 + 1) p.2) []

/-- `{uniqueWords, totalWords, diversity}` of `analyzeVocabulary`. -/
structure Vocabulary where
  uniqueWords : ℕ
  totalWords : ℕ
  diversity : Option ℚ
deriving DecidableEq

/-- `analyzeVocabulary(words)`: distinct lowercased words over total,
rounded to two decimals; `NaN` (modelled `none`) when there are no
words. -/
def analyzeVocabulary (words : List (List Char)) : Vocabulary :=
  let uniqueWords := (words.map jsToLower).dedup.length
  { uniqueWords := uniqueWords
    totalWords := words.length
    diversity := optRoundTo2 (jsDiv (uniqueWords : ℚ) (words.length : ℚ)) }

/-- `calculateAvgSyllables(words)` (`NaN`, modelled `none`, on an empty
word list). -/
def calculateAvgSyllables (words : List (List Char)) : Option ℚ :=
  jsDiv ((words.map (fun w => (countSyllablesFP w : ℚ))).sum) (words.length : ℚ)

/-- The record produced by `FeedbackProcessor.analyzeText`.  Ratio fields
are `none` when non-finite in JS (`NaN`/`±Infinity` from a zero
denominator). -/
structure TextAnalysis where
  wordCount : ℕ
  sentenceCount : ℕ
  paragraphCount : ℕ
  avgWordsPerSentence : Option ℚ
  avgWordsPerParagraph : Option ℚ
  readabilityScore : Option ℚ
  sentiment : SentimentResult
  grammarIssues : List GrammarIssue
  vocabulary : Vocabulary
deriving DecidableEq

/-- `analyzeText(text)` (`sa` is the sentiment collaborator). -/
def analyzeText (sa : String → SentimentResult) (text : String) : TextAnalysis :=
  let words := jsWords text
  let sentences := jsSentences text
  let paragraphs := (jsSplitPara text).filter (fun p => (jsTrim p).length ≠ 0)
  let avgWordsPerSentence := jsDiv (words.length : ℚ) (sentences.length : ℚ)
  let avgSyllablesPerWord := calculateAvgSyllables words
  let readabilityScore : Option ℚ :=
    match avgWordsPerSentence, avgSyllablesPerWord with
    | some a, some b => some (206.835 - 1.015 * a - 84.6 * b)
    | _, _ => none
  { wordCount := words.length
    sentenceCount := sentences.length
    paragraphCount := paragraphs.length
    avgWordsPerSentence := optRoundTo2 avgWordsPerSentence
    avgWordsPerParagraph :=
      optRoundTo2 (jsDiv (words.length : ℚ) (paragraphs.length : ℚ))
    readabilityScore := optRoundTo2 readabilityScore
    sentiment := sa text
    grammarIssues := identifyGrammarIssues text
    vocabulary := analyzeVocabulary words }

/-- `extractStudentName(filename)`: the first maximal `[A-Za-z\s]+` run,
trimmed; `'Unknown Student'` when the regex does not match. -/
def extractStudentName (filename : String) : String :=
  let isNameChar : Char → Bool := fun c => isAsciiLetter c || jsIsWs c
  let rest := filename.data.dropWhile (fun c => !isNameChar c)
  match rest with
  | [] => "Unknown Student"
  | _ => String.mk (jsTrim (rest.takeWhile isNameChar))

/-- An uploaded-file record as the processor sees it.  `buffer`/`path`
variants are I/O and not modelled; extraction uses the
`file.content || file.text || ''` fallback. -/
structure JsFile where
  originalname : Option String
  name : Option String
  content : Option String
  text : Option String
deriving DecidableEq

/-- A JS `||` step on a possibly-missing string: an absent or empty
string is falsy. -/
def jsTruthyStr : Option String → Option String
  | some s => if s = "" then none else some s
  | none => none

/-- `extractTextContent(file)` (content/text fallback branch). -/
def extractTextContent (f : JsFile) : String :=
  match jsTruthyStr f.content with
  | some s => s
  | none =>
    match jsTruthyStr f.text with
    | some s => s
    | none => ""

/-- `file.originalname || file.name || 'file-' + (index+1)`. -/
def fileInfoName (f : JsFile) (index : ℕ) : String :=
  match jsTruthyStr f.originalname with
  | some s => s
  | none =>
    match jsTruthyStr f.name with
    | some s => s
    | none => "file-" ++ toString (index + 1)

/-- The `options` record `{assignmentType?, evaluationCriteria?}`. -/
structure ProcessOptions where
  assignmentType : Option String
  evaluationCriteria : Option (List String)
deriving DecidableEq

/-- A feedback suggestion.  The duck-typed `details` of the JS object is
split by provenance: dimension suggestions copy the dimension's details,
the grammar suggestion carries `{issues: first 5, totalIssues}`. -/
structure Suggestion where
  category : String
  priority : String
  score : ℚ
  feedback : String
  specificSuggestions : String
  dimDetails : List (String × JsVal)
  grammarDetails : Option (List GrammarIssue × ℕ)
deriving DecidableEq

/-- The `feedbackMap` of `generateFeedbackSuggestions`:
`(high, medium, specific)` texts per dimension name. -/
def feedbackMapLookup (dim : String) : Option (String × String × String) :=
  if dim = "structure" then
    some ("Your essay structure needs significant improvement. Focus on clear organization with distinct introduction, body, and conclusion sections.",
      "Your structure is good but could be more effective with better paragraph organization and transitions.",
      "Consider using topic sentences and transition words to improve flow.")
  else if dim = "creativity" then
    some ("Try to include more original ideas and unique perspectives in your work.",
      "Good start on creativity, but push yourself to think more outside the box.",
      "Consider using more varied vocabulary and unique examples.")
  else if dim = "accuracy" then
    some ("Review your facts and ensure all information is accurate and properly cited.",
      "Most information is accurate, but some details need verification.",
      "Check your sources and citations for accuracy.")
  else if dim = "presentation" then
    some ("Pay close attention to formatting, grammar, and overall presentation quality.",
      "Good presentation overall, but some areas need polishing.",
      "Review your work for consistent formatting and grammar.")
  else if dim = "criticalThinking" then
    some ("Develop stronger analytical skills by examining issues from multiple perspectives.",
      "Good analysis, but try to explore counterarguments more thoroughly.",
      "Consider alternative viewpoints and their implications.")
  else if dim = "clarity" then
    some ("Work on making your writing clearer and more concise.",
      "Your writing is generally clear but could be more direct in places.",
      "Simplify complex sentences and define technical terms.")
  else if dim = "depth" then
    some ("Your analysis needs more depth and detail to fully develop your ideas.",
      "Good analysis, but some points could be explored more thoroughly.",
      "Provide more examples and evidence to support your arguments.")
  else none

/-- `dimension.charAt(0).toUpperCase() + dimension.slice(1)`. -/
def capitalizeFirst (s : String) : String :=
  match s.data with
  | [] => ""
  | c :: cs => String.mk (c.toUpper :: cs)

/-- `{high: 0, medium: 1, low: 2}` of the suggestion sort. -/
def priorityRank (p : String) : ℕ :=
  if p = "high" then 0 else if p = "medium" then 1 else 2

/-- Stable insertion of `x` after all already-placed elements not
strictly greater. -/
def insertStable (lt : Suggestion → Suggestion → Bool) (x : Suggestion) :
    List Suggestion → List Suggestion
  | [] => [x]
  | y :: ys => if lt x y then x :: y :: ys else y :: insertStable lt x ys

/-- A stable sort (JS `Array.prototype.sort` is stable; TimSort and a
stable insertion sort agree on every total preorder). -/
def sortStable (lt : Suggestion → Suggestion → Bool) (l : List Suggestion) :
    List Suggestion :=
  l.foldl (fun acc x => insertStable lt x acc) []

/-- The comparator of `generateFeedbackSuggestions` as a strict order:
by priority (high → low), then by ascending score. -/
def suggestionLt (a b : Suggestion) : Bool :=
  priorityRank a.priority < priorityRank b.priority ||
    (priorityRank a.priority = priorityRank b.priority && a.score < b.score)

/-- The suggestion one dimension contributes, if any: scores ≥ 0.7 are
skipped (the `else` branch returns unconditionally; its `score > 0.8`
assignment is dead code), and dimensions without a `feedbackMap` entry
are skipped. -/
def dimensionSuggestion (dim : String) (r : DimResult) : Option Suggestion :=
  match feedbackMapLookup dim with
  | none => none
  | some (hi, med, specific) =>
    if r.score < 0.4 then
      some { category := capitalizeFirst dim, priority := "high"
             score := roundTo2 r.score
             feedback := if r.feedback = "" then hi else r.feedback
             specificSuggestions := specific
             dimDetails := r.details, grammarDetails := none }
    else if r.score < 0.7 then
      some { category := capitalizeFirst dim, priority := "medium"
             score := roundTo2 r.score
             feedback := if r.feedback = "" then med else r.feedback
             specificSuggestions := specific
             dimDetails := r.details, grammarDetails := none }
    else none

/-- `generateFeedbackSuggestions(textAnalysis, assignmentAnalysis,
dimensionScores, assignmentType)`. -/
def generateFeedbackSuggestions (textAnalysis : TextAnalysis)
    (assignmentAnalysis : TypeAnalysis) (dimensionScores : List (String × DimResult))
    (assignmentType : String) : List Suggestion :=
  let dimSuggestions :=
    dimensionScores.filterMap (fun p => dimensionSuggestion p.1 p.2)
  let suggestions :=
    if textAnalysis.grammarIssues.length > 0 then
      -- `Math.max(0, 1 - issues/wordCount * 100)`; a zero word count with
      -- issues present cannot arise, and would give `-Infinity → 0` in JS.
      let grammarScore : ℚ :=
        match jsDiv (textAnalysis.grammarIssues.length : ℚ)
            (textAnalysis.wordCount : ℚ) with
        | none => 0
        | some r => max 0 (1 - r * 100)
      dimSuggestions ++
        [{ category := "Grammar & Style"
           priority := if grammarScore < 0.6 then "high" else "medium"
           score := grammarScore
           feedback :=
             if grammarScore < 0.6 then
               "Several grammar and style issues were found that affect readability."
             else "Some grammar and style issues were found that could be improved."
           specificSuggestions :=
             "Review your work for grammar, punctuation, and style consistency."
           dimDetails := []
           grammarDetails := some (textAnalysis.grammarIssues.take 5,
             textAnalysis.grammarIssues.length) }]
    else dimSuggestions
  sortStable suggestionLt suggestions

/-- The merged analysis object returned by `processSingleAssignment`
(its `metadata.processedAt` timestamp is I/O and omitted). -/
structure SingleAnalysis where
  textAnalysis : TextAnalysis
  assignmentAnalysis : TypeAnalysis
  dimensionScores : List (String × DimResult)
  feedback : String
  feedbackSuggestions : List Suggestion
  improvementAreas : List ScoreEntry
  strengths : List ScoreEntry
  wordCount : ℕ
  readabilityScore : ℚ
  overallQuality : ℚ
  metadataAssignmentType : String
  metadataEvaluationCriteria : List String
deriving DecidableEq

/-- `processSingleAssignment(file, options)`.  The `!file` guard cannot
arise for a record value; the only throw site reachable in the embedding
is the empty-content check, whose error the outer `catch` rewraps as
`Could not process file: <message>`. -/
def processSingleAssignment (sa : String → SentimentResult) (f : JsFile)
    (opts : ProcessOptions) : Except String SingleAnalysis :=
  let assignmentType := opts.assignmentType.getD "essay"
  let evaluationCriteria := opts.evaluationCriteria.getD []
  let textContent := extractTextContent f
  if textContent = "" ∨ (jsTrim textContent.data).length = 0 then
    .error "Could not process file: File appears to be empty"
  else
    let evaluation := evaluate textContent assignmentType
    let textAnalysis := analyzeText sa textContent
    let assignmentAnalysis := analyzeByType textContent assignmentType
    let feedbackSuggestions := generateFeedbackSuggestions textAnalysis
      assignmentAnalysis evaluation.dimensions assignmentType
    .ok
      { textAnalysis :=
          { textAnalysis with
            wordCount := evaluation.wordCount
            sentenceCount := evaluation.sentenceCount
            paragraphCount := evaluation.paragraphCount
            readabilityScore := some evaluation.readabilityScore }
        assignmentAnalysis := assignmentAnalysis
        dimensionScores := evaluation.dimensions
        feedback := evaluation.feedback
        feedbackSuggestions := feedbackSuggestions
        improvementAreas := evaluation.areasForImprovement
        strengths := evaluation.strengths
        wordCount := evaluation.wordCount
        readabilityScore := evaluation.readabilityScore
        overallQuality := evaluation.overallScore
        metadataAssignmentType := assignmentType
        metadataEvaluationCriteria :=
          if evaluationCriteria.length > 0 then evaluationCriteria
          else evaluation.dimensions.map Prod.fst }

/-- One per-file entry of the bulk result list. -/
structure SubmissionResult where
  fileName : String
  studentName : String
  status : String
  analysis : Option SingleAnalysis
  error : Option String
deriving DecidableEq

/-- One iteration of the bulk loop: the per-file `try/catch` converts a
failure into a `status: 'error'` record and the loop continues. -/
def processBulkStep (sa : String → SentimentResult) (opts : ProcessOptions)
    (index : ℕ) (f : JsFile) : SubmissionResult :=
  let fname := fileInfoName f index
  match processSingleAssignment sa f opts with
  | .ok a =>
    { fileName := fname, studentName := extractStudentName fname,
      status := "success", analysis := some a, error := none }
  | .error m =>
    { fileName := fname, studentName := extractStudentName fname,
      status := "error", analysis := none, error := some m }

/-- `processBulkAssignments(files, options)`.  The
`!Array.isArray(files)` half of the guard is not representable for a
typed list argument; the `files.length === 0` half makes the empty list
throw. -/
def processBulkAssignments (sa : String → SentimentResult) (files : List JsFile)
    (opts : ProcessOptions) : Except String (List SubmissionResult) :=
  if files.length = 0 then .error "No files provided for processing"
  else .ok (files.enum.map (fun p => processBulkStep sa opts p.1 p.2))

/-! ## Score bounds of the dimension analyzers -/

theorem clampMinMax_bounds (x : ℚ) : 0 ≤ min 1 (max 0 x) ∧ min 1 (max 0 x) ≤ 1 :=
  ⟨le_min (by norm_num) (le_max_left 0 x), min_le_left 1 _⟩

theorem clampMaxMin_bounds (x : ℚ) : 0 ≤ max 0 (min 1 x) ∧ max 0 (min 1 x) ≤ 1 :=
  ⟨le_max_left 0 _, max_le (by norm_num) (min_le_left 1 x)⟩

theorem analyzeStructure_score_bounds (text ty : String) :
    0 ≤ (analyzeStructure text ty).score ∧ (analyzeStructure text ty).score ≤ 1 := by
  unfold analyzeStructure
  exact clampMinMax_bounds _

theorem analyzeCreativity_score_bounds (text ty : String) :
    0 ≤ (analyzeCreativity text ty).score ∧ (analyzeCreativity text ty).score ≤ 1 := by
  unfold analyzeCreativity
  simp only
  set c := countWordsB creativityWords (jsToLower text.data) with hc
  set d : ℚ := ((jsSplitWs text).map jsToLower).dedup.length / ((jsSplitWs text).length : ℚ)
    with hd
  have hcq : (0 : ℚ) ≤ (c : ℚ) * 0.05 := by positivity
  have hdq : (0 : ℚ) ≤ d * 2 := by
    have : (0 : ℚ) ≤ d := by
      rw [hd]; positivity
    linarith
  have h1 : (0 : ℚ) ≤ min 0.3 ((c : ℚ) * 0.05) := le_min (by norm_num) hcq
  have h2 : min (0.3 : ℚ) ((c : ℚ) * 0.05) ≤ 0.3 := min_le_left _ _
  have h3 : (0 : ℚ) ≤ min 0.4 (d * 2) := le_min (by norm_num) hdq
  have h4 : min (0.4 : ℚ) (d * 2) ≤ 0.4 := min_le_left _ _
  constructor <;> linarith

theorem analyzeAccuracy_score_bounds (text ty : String) :
    0 ≤ (analyzeAccuracy text ty).score ∧ (analyzeAccuracy text ty).score ≤ 1 := by
  unfold analyzeAccuracy
  simp only
  set m := factualClaims.filter (fun c => hasSub c.1.data (jsToLower text.data)) with hm
  by_cases h : m.length > 0
  · simp only [h, if_pos]
    have hle : (m.filter (fun c => (c.2.1 && !c.2.2) || (!c.2.1 && c.2.2))).length ≤
        m.length := List.length_filter_le _ _
    constructor
    · positivity
    · rw [div_le_one (by exact_mod_cast h)]
      exact_mod_cast hle
  · simp only [h, if_neg, not_false_iff]
    norm_num

theorem analyzePresentation_score_bounds (text ty : String) :
    0 ≤ (analyzePresentation text ty).score ∧ (analyzePresentation text ty).score ≤ 1 := by
  unfold analyzePresentation
  exact clampMinMax_bounds _

theorem analyzeCriticalThinking_score_bounds (text ty : String) :
    0 ≤ (analyzeCriticalThinking text ty).score ∧
      (analyzeCriticalThinking text ty).score ≤ 1 := by
  unfold analyzeCriticalThinking
  exact clampMinMax_bounds _

theorem analyzeOriginality_score_eq_one (text ty : String) :
    (analyzeOriginality text ty).score = 1 := by
  norm_num [analyzeOriginality, analyzeOriginalIdeas, analyzePersonalVoice]

theorem analyzeOriginality_score_bounds (text ty : String) :
    0 ≤ (analyzeOriginality text ty).score ∧ (analyzeOriginality text ty).score ≤ 1 := by
  rw [analyzeOriginality_score_eq_one]
  norm_num

theorem analyzeClarity_score_bounds (text ty : String) :
    0 ≤ (analyzeClarity text ty).score ∧ (analyzeClarity text ty).score ≤ 1 := by
  unfold analyzeClarity
  exact clampMaxMin_bounds _

theorem analyzeDepth_score_bounds (text ty : String) :
    0 ≤ (analyzeDepth text ty).score ∧ (analyzeDepth text ty).score ≤ 1 := by
  unfold analyzeDepth
  exact clampMinMax_bounds _

/-! ## Characterization of the evaluate loop -/

/-- The dimensions actually included by the loop for a given outcome
function: name, weight and result of every weight-table entry whose
analyzer ran successfully. -/
def includedEntries (run : String → Option DimResult) (entries : List (String × ℚ)) :
    List (String × ℚ × DimResult) :=
  entries.filterMap (fun e => (run e.1).map (fun r => (e.1, e.2, r)))

/-- The strength/improvement entry built from a dimension result. -/
def mkScoreEntry (name : String) (r : DimResult) : ScoreEntry :=
  ⟨name, r.score, firstSentenceDot r.feedback⟩

theorem evalFold_spec (run : String → Option DimResult) :
    ∀ (entries : List (String × ℚ)) (st : EvalLoopState),
      (entries.foldl (evalStep run) st) =
        { dims := st.dims ++ (includedEntries run entries).map (fun e => (e.1, e.2.2)),
          weightedScoreSum := st.weightedScoreSum +
            ((includedEntries run entries).map (fun e => e.2.2.score * e.2.1)).sum,
          totalWeight := st.totalWeight +
            ((includedEntries run entries).map (fun e => e.2.1)).sum,
          strengths := st.strengths ++ ((includedEntries run entries).filter
            (fun e => 0.7 < e.2.2.score)).map (fun e => mkScoreEntry e.1 e.2.2),
          improvements := st.improvements ++ ((includedEntries run entries).filter
            (fun e => ¬(0.7 < e.2.2.score) ∧ e.2.2.score < 0.5)).map
              (fun e => mkScoreEntry e.1 e.2.2) } := by
  intro entries
  induction entries with
  | nil => intro st; simp [includedEntries]
  | cons a as ih =>
    intro st
    rw [List.foldl_cons, ih]
    rcases hr : run a.1 with _ | r
    · simp [includedEntries, evalStep, hr]
    · by_cases h7 : (0.7 : ℚ) < r.score
      · have h5 : ¬(¬((0.7 : ℚ) < r.score) ∧ r.score < 0.5) := fun hc => hc.1 h7
        simp [includedEntries, evalStep, hr, EvalLoopState.mk.injEq, mkScoreEntry,
          h7, h5, List.append_assoc, add_assoc]
      · have h7' : r.score ≤ 0.7 := not_lt.mp h7
        by_cases h5 : r.score < 0.5
        · simp [includedEntries, evalStep, hr, EvalLoopState.mk.injEq, mkScoreEntry,
            h7, h7', h5, List.append_assoc, add_assoc, List.filter_cons]
        · simp [includedEntries, evalStep, hr, EvalLoopState.mk.injEq, mkScoreEntry,
            h7, h7', h5, List.append_assoc, add_assoc, List.filter_cons]

/-- The six dimension names/weights/results the loop actually evaluates:
the `criticalThinking` weight entry finds no analyzer (the registry key is
`critical_thinking`), and `originality` has no weight entry. -/
theorem includedEntries_evaluate (text ty : String) :
    includedEntries (fun name => (dimensionAnalyzers name).map (fun f => f text ty))
      evalWeights =
    [("structure", 0.20, analyzeStructure text ty),
     ("creativity", 0.15, analyzeCreativity text ty),
     ("accuracy", 0.15, analyzeAccuracy text ty),
     ("presentation", 0.10, analyzePresentation text ty),
     ("clarity", 0.10, analyzeClarity text ty),
     ("depth", 0.10, analyzeDepth text ty)] := by
  simp [includedEntries, evalWeights, dimensionAnalyzers]

theorem evaluate_dimensions_eq (text ty : String) :
    (evaluate text ty).dimensions =
      [("structure", analyzeStructure text ty),
       ("creativity", analyzeCreativity text ty),
       ("accuracy", analyzeAccuracy text ty),
       ("presentation", analyzePresentation text ty),
       ("clarity", analyzeClarity text ty),
       ("depth", analyzeDepth text ty)] := by
  simp [evaluate, evaluateCore, evalFold_spec, includedEntries_evaluate]

/-- The weighted score sum accumulated by the loop. -/
theorem evaluate_sum_eq (text ty : String) :
    ∀ st0 : EvalLoopState,
      (evalWeights.foldl
        (evalStep (fun name => (dimensionAnalyzers name).map (fun f => f text ty)))
        st0).weightedScoreSum =
      st0.weightedScoreSum + ((analyzeStructure text ty).score * 0.20 +
        ((analyzeCreativity text ty).score * 0.15 +
        ((analyzeAccuracy text ty).score * 0.15 +
        ((analyzePresentation text ty).score * 0.10 +
        ((analyzeClarity text ty).score * 0.10 +
        ((analyzeDepth text ty).score * 0.10 + 0)))))) := by
  intro st0
  rw [evalFold_spec, includedEntries_evaluate]
  simp

/-- The total weight accumulated by the loop is 0.80. -/
theorem evaluate_totalWeight_eq (text ty : String) :
    ∀ st0 : EvalLoopState,
      (evalWeights.foldl
        (evalStep (fun name => (dimensionAnalyzers name).map (fun f => f text ty)))
        st0).totalWeight = st0.totalWeight + 4 / 5 := by
  intro st0
  rw [evalFold_spec, includedEntries_evaluate]
  norm_num

/-- The overall score of `evaluate`, with the `[0,1]` clamp removed (the
clamped value is already in range). -/
theorem evaluate_overallScore_eq (text ty : String) :
    (evaluate text ty).overallScore =
      ((analyzeStructure text ty).score * 0.20 + (analyzeCreativity text ty).score * 0.15 +
       (analyzeAccuracy text ty).score * 0.15 + (analyzePresentation text ty).score * 0.10 +
       (analyzeClarity text ty).score * 0.10 + (analyzeDepth text ty).score * 0.10) / (4 / 5) *
      min 1 (((jsSplitWs text).length : ℚ) / 150) := by
  obtain ⟨h1a, h1b⟩ := analyzeStructure_score_bounds text ty
  obtain ⟨h2a, h2b⟩ := analyzeCreativity_score_bounds text ty
  obtain ⟨h3a, h3b⟩ := analyzeAccuracy_score_bounds text ty
  obtain ⟨h4a, h4b⟩ := analyzePresentation_score_bounds text ty
  obtain ⟨h5a, h5b⟩ := analyzeClarity_score_bounds text ty
  obtain ⟨h6a, h6b⟩ := analyzeDepth_score_bounds text ty
  have hS : (evaluate text ty).overallScore =
      max 0 (min 1
        (((analyzeStructure text ty).score * 0.20 + ((analyzeCreativity text ty).score * 0.15 +
          ((analyzeAccuracy text ty).score * 0.15 + ((analyzePresentation text ty).score * 0.10 +
          ((analyzeClarity text ty).score * 0.10 + ((analyzeDepth text ty).score * 0.10 + 0)))))) /
            (4 / 5) *
          min 1 (((jsSplitWs text).length : ℚ) / 150))) := by
    simp only [evaluate, evaluateCore]
    rw [evaluate_sum_eq, evaluate_totalWeight_eq]
    norm_num
  rw [hS]
  set A : ℚ := ((analyzeStructure text ty).score * 0.20 + ((analyzeCreativity text ty).score * 0.15 +
    ((analyzeAccuracy text ty).score * 0.15 + ((analyzePresentation text ty).score * 0.10 +
    ((analyzeClarity text ty).score * 0.10 + ((analyzeDepth text ty).score * 0.10 + 0)))))) /
      (4 / 5) with hA
  set P : ℚ := min 1 (((jsSplitWs text).length : ℚ) / 150) with hP
  have hA0 : 0 ≤ A := by
    rw [hA]
    positivity
  have hA1 : A ≤ 1 := by
    rw [hA, div_le_one (by norm_num)]
    linarith
  have hP0 : 0 ≤ P := by
    rw [hP]
    exact le_min (by norm_num) (by positivity)
  have hP1 : P ≤ 1 := min_le_left _ _
  have hAP0 : 0 ≤ A * P := mul_nonneg hA0 hP0
  have hAP1 : A * P ≤ 1 := mul_le_one₀ hA1 hP0 hP1
  rw [min_eq_right hAP1, max_eq_right hAP0]
  ring

/-- Filtering the projected dimension list and filtering the included
entries produce the same score entries. -/
theorem filterMapPairComm (L : List (String × ℚ × DimResult)) (q : DimResult → Bool) :
    ((L.map (fun e => (e.1, e.2.2))).filter (fun p => q p.2)).map
      (fun p => mkScoreEntry p.1 p.2) =
    (L.filter (fun e => q e.2.2)).map (fun e => mkScoreEntry e.1 e.2.2) := by
  induction L with
  | nil => simp
  | cons a as ih =>
    simp only [List.map_cons, List.filter_cons]
    by_cases h : q a.2.2 <;> simp [h, ih]

/-- Strengths of `evaluate` are exactly the dimensions scoring strictly
above 0.7, in evaluation order. -/
theorem evaluate_strengths_eq (text ty : String) :
    (evaluate text ty).strengths =
      (((evaluate text ty).dimensions).filter (fun p => 0.7 < p.2.score)).map
        (fun p => mkScoreEntry p.1 p.2) := by
  simp only [evaluate, evaluateCore]
  rw [evalFold_spec]
  dsimp only
  rw [List.nil_append, List.nil_append,
    filterMapPairComm _ (fun r => decide (0.7 < r.score))]

/-- Improvement areas of `evaluate` are exactly the dimensions scoring
strictly below 0.5, in evaluation order. -/
theorem evaluate_improvements_eq (text ty : String) :
    (evaluate text ty).areasForImprovement =
      (((evaluate text ty).dimensions).filter (fun p => p.2.score < 0.5)).map
        (fun p => mkScoreEntry p.1 p.2) := by
  simp only [evaluate, evaluateCore]
  rw [evalFold_spec]
  dsimp only
  have hcond : (fun e : String × ℚ × DimResult =>
      decide (¬(0.7 < e.2.2.score) ∧ e.2.2.score < 0.5)) =
      (fun e : String × ℚ × DimResult => decide (e.2.2.score < 0.5)) := by
    funext e
    by_cases h : e.2.2.score < 0.5
    · simp [h]
      linarith
    · simp [h]
  rw [List.nil_append, List.nil_append, hcond,
    filterMapPairComm _ (fun r => decide (r.score < 0.5))]

/-! ## Spec-side definitions used by the claim statements -/

/-- A concrete instance of the external sentiment collaborator (the
neutral lexicon), used to state closed facts about the pipeline. -/
def sentimentZero : String → SentimentResult := fun _ => ⟨0, 0, [], []⟩

/-- `o` is a finite number lying in `[0, 1]`. -/
def optInUnit (o : Option ℚ) : Prop :=
  ∃ q, o = some q ∧ 0 ≤ q ∧ q ≤ 1

/-- The fixed dimension set of `evaluateDimension`. -/
def dimensionNames : List String :=
  ["structure", "creativity", "accuracy", "presentation", "critical_thinking",
   "originality", "clarity", "depth"]

/-- The fixed assignment-type set of `analyzeByType`. -/
def assignmentTypeNames : List String :=
  ["essay", "worksheet", "report", "creative", "analysis", "general"]

/-- Weight of a dimension name in the `evaluate` weight table (0 when
absent). -/
def dimWeight (name : String) : ℚ :=
  ((evalWeights.find? (fun e => e.1 = name)).map Prod.snd).getD 0

/-- Spec-side weighted sum: Σ weight·score over the dimensions the
report actually contains. -/
def evalWeightedSum (text ty : String) : ℚ :=
  (((evaluate text ty).dimensions).map (fun p => dimWeight p.1 * p.2.score)).sum

/-- Spec-side renormalized weighted average: Σ weight·score / Σ weight
over the dimensions the report actually contains. -/
def evalWeightedAverage (text ty : String) : ℚ :=
  evalWeightedSum text ty /
    (((evaluate text ty).dimensions).map (fun p => dimWeight p.1)).sum

theorem evalWeightedSum_eq (text ty : String) :
    evalWeightedSum text ty =
      (analyzeStructure text ty).score * 0.20 + (analyzeCreativity text ty).score * 0.15 +
      (analyzeAccuracy text ty).score * 0.15 + (analyzePresentation text ty).score * 0.10 +
      (analyzeClarity text ty).score * 0.10 + (analyzeDepth text ty).score * 0.10 := by
  rw [evalWeightedSum, evaluate_dimensions_eq]
  simp [dimWeight, evalWeights, List.find?]
  ring

theorem evalWeights_sum_eq (text ty : String) :
    (((evaluate text ty).dimensions).map (fun p => dimWeight p.1)).sum = 4 / 5 := by
  rw [evaluate_dimensions_eq]
  simp [dimWeight, evalWeights, List.find?]
  norm_num

theorem evalWeightedAverage_eq (text ty : String) :
    evalWeightedAverage text ty =
      ((analyzeStructure text ty).score * 0.20 + (analyzeCreativity text ty).score * 0.15 +
       (analyzeAccuracy text ty).score * 0.15 + (analyzePresentation text ty).score * 0.10 +
       (analyzeClarity text ty).score * 0.10 + (analyzeDepth text ty).score * 0.10) / (4 / 5) := by
  rw [evalWeightedAverage, evalWeightedSum_eq, evalWeights_sum_eq]

theorem evaluate_wordCount_eq (text ty : String) :
    (evaluate text ty).wordCount = (jsSplitWs text).length := rfl

/-- `evaluate`'s overall score in spec terms: renormalized weighted
average times the length penalty. -/
theorem evaluate_overall_spec (text ty : String) :
    (evaluate text ty).overallScore =
      evalWeightedAverage text ty * min 1 (((evaluate text ty).wordCount : ℚ) / 150) := by
  rw [evaluate_overallScore_eq, evalWeightedAverage_eq, evaluate_wordCount_eq]

theorem dimensionAnalyzers_eq_none_iff (d : String) :
    dimensionAnalyzers d = none ↔ d ∉ dimensionNames := by
  unfold dimensionAnalyzers dimensionNames
  split_ifs with h1 h2 h3 h4 h5 h6 h7 h8 <;> simp_all

theorem assignmentHandlers_eq_none_iff (ty : String) :
    assignmentHandlers ty = none ↔ ty ∉ assignmentTypeNames := by
  unfold assignmentHandlers assignmentTypeNames
  split_ifs with h1 h2 h3 h4 h5 h6 <;> simp_all

/-! ## Grammar-issue machinery -/

/-- A capitalization issue record with 1-based sentence index `i`. -/
def capIssue (i : ℕ) : GrammarIssue :=
  ⟨"capitalization", i, "Sentence should start with a capital letter",
   "Capitalize the first letter of the sentence"⟩

/-- A run-on issue record with 1-based sentence index `i`. -/
def runOnIssue (i : ℕ) : GrammarIssue :=
  ⟨"run-on", i, "Sentence may be too long", "Consider breaking into shorter sentences"⟩

theorem foldl_append_eq_flatten {α β : Type} (g : α → List β) :
    ∀ (l : List α) (acc : List β),
      l.foldl (fun acc x => acc ++ g x) acc = acc ++ (l.map g).flatten := by
  intro l
  induction l with
  | nil => intro acc; simp
  | cons a as ih => intro acc; simp [ih]

theorem identifyGrammarIssues_eq_flatten (text : String) :
    identifyGrammarIssues text =
      ((jsSplitSent text).enum.map (fun p => sentenceIssues (p.1 + 1) p.2)).flatten := by
  unfold identifyGrammarIssues
  rw [foldl_append_eq_flatten (fun p : ℕ × List Char => sentenceIssues (p.1 + 1) p.2)
    (jsSplitSent text).enum []]
  simp

theorem sentenceIssues_sentence_eq (j : ℕ) (s : List Char) :
    ∀ g ∈ sentenceIssues j s, g.sentence = j := by
  intro g hg
  simp only [sentenceIssues] at hg
  split_ifs at hg <;> simp_all [List.mem_append] <;> rcases hg with hg | hg <;> simp [hg]

theorem mem_sentenceIssues_cap (i j : ℕ) (s : List Char) :
    capIssue i ∈ sentenceIssues j s ↔
      i = j ∧ (jsTrim s).length ≠ 0 ∧ firstCharNotCapitalized (jsTrim s) = true := by
  simp only [sentenceIssues, capIssue]
  split_ifs <;> simp_all [GrammarIssue.mk.injEq]

theorem mem_sentenceIssues_runOn (i j : ℕ) (s : List Char) :
    runOnIssue i ∈ sentenceIssues j s ↔
      i = j ∧ (jsTrim s).length ≠ 0 ∧ 30 < (splitRuns jsIsWs (jsTrim s)).length := by
  simp only [sentenceIssues, runOnIssue]
  split_ifs <;> simp_all [GrammarIssue.mk.injEq]

theorem pairwise_le_of_const {l : List ℕ} {j : ℕ} (h : ∀ x ∈ l, x = j) :
    l.Pairwise (· ≤ ·) := by
  induction l with
  | nil => exact List.Pairwise.nil
  | cons a as ih =>
    refine List.Pairwise.cons ?_ (ih (fun x hx => h x (List.mem_cons_of_mem _ hx)))
    intro b hb
    rw [h a (List.mem_cons_self _ _), h b (List.mem_cons_of_mem _ hb)]

theorem enum_pairwise_fst_lt {α : Type} (l : List α) :
    l.enum.Pairwise (fun a b => a.1 < b.1) := by
  have h := List.pairwise_lt_range l.length
  have h2 : l.enum.map Prod.fst = List.range l.length := List.enum_map_fst l
  exact (List.pairwise_map).mp (h2 ▸ h)

/-- Grammar issues are listed in (weakly) increasing sentence order. -/
theorem identifyGrammarIssues_sorted (text : String) :
    ((identifyGrammarIssues text).map GrammarIssue.sentence).Sorted (· ≤ ·) := by
  rw [identifyGrammarIssues_eq_flatten, List.map_flatten, List.map_map]
  rw [List.Sorted]
  rw [List.pairwise_flatten]
  constructor
  · intro t ht
    rcases List.mem_map.mp ht with ⟨p, hp, rfl⟩
    apply pairwise_le_of_const (j := p.1 + 1)
    intro x hx
    rcases List.mem_map.mp hx with ⟨g, hg, rfl⟩
    exact sentenceIssues_sentence_eq _ _ g hg
  · have hp := enum_pairwise_fst_lt (jsSplitSent text)
    refine List.Pairwise.map _ ?_ hp
    intro a b hab u hu v hv
    rcases List.mem_map.mp hu with ⟨g, hg, rfl⟩
    rcases List.mem_map.mp hv with ⟨g', hg', rfl⟩
    rw [sentenceIssues_sentence_eq _ _ g hg, sentenceIssues_sentence_eq _ _ g' hg']
    omega

/-- A whitespace-only text has no words. -/
theorem jsWords_eq_nil_of_ws (text : String) (h : ∀ c ∈ text.data, jsIsWs c = true) :
    jsWords text = [] := by
  rw [jsWords, List.filter_eq_nil_iff]
  intro t ht
  simp only [ne_eq, decide_not, Bool.not_eq_true', decide_eq_false_iff_not, not_not]
  by_contra hne
  have hne' : t ≠ [] := fun h0 => hne (by simp [h0])
  obtain ⟨c, hc⟩ := List.exists_mem_of_ne_nil t hne'
  have h1 : jsIsWs c = false :=
    splitRunsF_token_not_sep jsIsWs text.data false [] (by simp) t ht c hc
  have h2 : jsIsWs c = true := h c (splitRuns_sublist jsIsWs text.data t ht c hc)
  rw [h1] at h2
  exact Bool.false_ne_true h2

/-- A whitespace-only text has no (non-empty) sentences. -/
theorem jsSentences_eq_nil_of_ws (text : String)
    (h : ∀ c ∈ text.data, jsIsWs c = true) : jsSentences text = [] := by
  rw [jsSentences, List.filter_eq_nil_iff]
  intro t ht
  simp only [ne_eq, decide_not, Bool.not_eq_true', decide_eq_false_iff_not, not_not]
  rw [List.length_eq_zero, jsTrim_eq_nil_iff]
  intro c hc
  exact h c (splitRuns_sublist isSentStop text.data t ht c hc)

/-- A whitespace-only text has no (non-empty) paragraphs. -/
theorem jsSplitPara_filter_eq_nil_of_ws (text : String)
    (h : ∀ c ∈ text.data, jsIsWs c = true) :
    (jsSplitPara text).filter (fun p => (jsTrim p).length ≠ 0) = [] := by
  rw [List.filter_eq_nil_iff]
  intro t ht
  simp only [ne_eq, decide_not, Bool.not_eq_true', decide_eq_false_iff_not, not_not]
  rw [List.length_eq_zero, jsTrim_eq_nil_iff]
  intro c hc
  exact h c (jsSplitPara_subset text t ht c hc)

theorem roundTo2_mem_unit {q : ℚ} (h0 : 0 ≤ q) (h1 : q ≤ 1) :
    0 ≤ roundTo2 q ∧ roundTo2 q ≤ 1 := by
  unfold roundTo2 jsRound
  have hlow : (0 : ℤ) ≤ round (q * 100) := by
    have : round (0 : ℚ) ≤ round (q * 100) := by
      rw [round_eq, round_eq]
      exact Int.floor_le_floor (by linarith)
    simpa using this
  have hhigh : round (q * 100) ≤ 100 := by
    have : round (q * 100) ≤ round (100 : ℚ) := by
      rw [round_eq, round_eq]
      exact Int.floor_le_floor (by linarith)
    simpa using this
  constructor
  · positivity
  · rw [div_le_one (by norm_num)]
    exact_mod_cast hhigh

/-! ## Claim theorems -/

/-- C2: for every text and assignment type, `evaluate`'s overall score is
the weighted average of the evaluated dimension scores, with weights
renormalized by the sum of the weights of the dimensions actually
evaluated, multiplied by the length penalty `min(1, wordCount/150)`; at
or above 150 words the penalty is 1, and below 150 words the score is
`weightedAverage · wordCount / 150`, i.e. linear in the word count. -/
theorem claim_C2_length_penalty (text ty : String) :
    (evaluate text ty).overallScore =
      evalWeightedAverage text ty *
        min 1 (((evaluate text ty).wordCount : ℚ) / 150) ∧
    (150 ≤ (evaluate text ty).wordCount →
      (evaluate text ty).overallScore = evalWeightedAverage text ty) ∧
    ((evaluate text ty).wordCount ≤ 150 →
      (evaluate text ty).overallScore =
        evalWeightedAverage text ty * ((evaluate text ty).wordCount : ℚ) / 150) := by
  refine ⟨evaluate_overall_spec text ty, ?_, ?_⟩
  · intro h
    rw [evaluate_overall_spec text ty]
    have h1 : (1 : ℚ) ≤ ((evaluate text ty).wordCount : ℚ) / 150 := by
      rw [le_div_iff₀ (by norm_num)]
      exact_mod_cast by simpa using h
    rw [min_eq_left h1, mul_one]
  · intro h
    rw [evaluate_overall_spec text ty]
    have h1 : ((evaluate text ty).wordCount : ℚ) / 150 ≤ 1 := by
      rw [div_le_one (by norm_num)]
      exact_mod_cast h
    rw [min_eq_right h1, mul_div_assoc]

/-- C4: `evaluateDimension` fails (with the unknown-dimension error)
exactly when the requested dimension is outside the fixed eight-name
set, and succeeds with a score in `[0, 1]` for every name in the set,
for every text and assignment type. -/
theorem claim_C4_evaluateDimension (text dim ty : String) :
    ((∃ e, evaluateDimension text dim ty = .error e) ↔ dim ∉ dimensionNames) ∧
    (dim ∉ dimensionNames →
      evaluateDimension text dim ty =
        .error ("Unknown evaluation dimension: " ++ dim)) ∧
    (dim ∈ dimensionNames →
      ∃ r, evaluateDimension text dim ty = .ok r ∧ 0 ≤ r.score ∧ r.score ≤ 1) := by
  by_cases hm : dim ∈ dimensionNames
  · have hok : ∃ r, evaluateDimension text dim ty = .ok r ∧ 0 ≤ r.score ∧ r.score ≤ 1 := by
      simp only [dimensionNames, List.mem_cons, List.mem_singleton,
        List.not_mem_nil, or_false] at hm
      rcases hm with rfl | rfl | rfl | rfl | rfl | rfl | rfl | rfl
      · exact ⟨_, by simp [evaluateDimension, dimensionAnalyzers],
          analyzeStructure_score_bounds text ty⟩
      · exact ⟨_, by simp [evaluateDimension, dimensionAnalyzers],
          analyzeCreativity_score_bounds text ty⟩
      · exact ⟨_, by simp [evaluateDimension, dimensionAnalyzers],
          analyzeAccuracy_score_bounds text ty⟩
      · exact ⟨_, by simp [evaluateDimension, dimensionAnalyzers],
          analyzePresentation_score_bounds text ty⟩
      · exact ⟨_, by simp [evaluateDimension, dimensionAnalyzers],
          analyzeCriticalThinking_score_bounds text ty⟩
      · exact ⟨_, by simp [evaluateDimension, dimensionAnalyzers],
          analyzeOriginality_score_bounds text ty⟩
      · exact ⟨_, by simp [evaluateDimension, dimensionAnalyzers],
          analyzeClarity_score_bounds text ty⟩
      · exact ⟨_, by simp [evaluateDimension, dimensionAnalyzers],
          analyzeDepth_score_bounds text ty⟩
    obtain ⟨r, hr, _⟩ := id hok
    refine ⟨⟨fun ⟨e, he⟩ => ?_, fun h => absurd hm h⟩, fun h => absurd hm h, fun _ => hok⟩
    rw [hr] at he
    exact Except.noConfusion he
  · have hnone : dimensionAnalyzers dim = none := (dimensionAnalyzers_eq_none_iff dim).mpr hm
    have herr : evaluateDimension text dim ty =
        .error ("Unknown evaluation dimension: " ++ dim) := by
      simp [evaluateDimension, hnone]
    exact ⟨⟨fun _ => hm, fun _ => ⟨_, herr⟩⟩, fun _ => herr, fun h => absurd h hm⟩

/-- C5 (counterexample): on the text `"a\n\nb\n\nc\n\nd\n\ne"` the
structure dimension scores exactly 0.7, is part of the report's
dimensions, and is NOT listed as a strength — refuting the claim that a
score of at least 0.7 yields a strength entry (the code uses a strict
`> 0.7`). -/
theorem claim_C5_counterexample :
    ("structure", analyzeStructure "a\n\nb\n\nc\n\nd\n\ne" "essay") ∈
      (evaluate "a\n\nb\n\nc\n\nd\n\ne" "essay").dimensions ∧
    (analyzeStructure "a\n\nb\n\nc\n\nd\n\ne" "essay").score = 0.7 ∧
    "structure" ∉
      ((evaluate "a\n\nb\n\nc\n\nd\n\ne" "essay").strengths.map ScoreEntry.dimension) := by
  refine ⟨?_, ?_, ?_⟩
  · rw [evaluate_dimensions_eq]
    exact List.mem_cons_self _ _
  · with_unfolding_all decide
  · with_unfolding_all decide

/-- C5 (amended): the report classifies a dimension as a strength exactly
when its score is strictly greater than 0.7 and as an improvement exactly
when its score is strictly below 0.5; a dimension scoring in `[0.5, 0.7]`
appears in neither list, and no entry appears in both. -/
theorem claim_C5_amended (text ty : String) :
    (evaluate text ty).strengths =
      (((evaluate text ty).dimensions).filter (fun p => 0.7 < p.2.score)).map
        (fun p => mkScoreEntry p.1 p.2) ∧
    (evaluate text ty).areasForImprovement =
      (((evaluate text ty).dimensions).filter (fun p => p.2.score < 0.5)).map
        (fun p => mkScoreEntry p.1 p.2) ∧
    (∀ p ∈ (evaluate text ty).dimensions, 0.5 ≤ p.2.score → p.2.score ≤ 0.7 →
      mkScoreEntry p.1 p.2 ∉ (evaluate text ty).strengths ∧
      mkScoreEntry p.1 p.2 ∉ (evaluate text ty).areasForImprovement) ∧
    (∀ e, ¬(e ∈ (evaluate text ty).strengths ∧
      e ∈ (evaluate text ty).areasForImprovement)) := by
  refine ⟨evaluate_strengths_eq text ty, evaluate_improvements_eq text ty, ?_, ?_⟩
  · intro p hp h05 h07
    constructor
    · rw [evaluate_strengths_eq]
      intro hmem
      rcases List.mem_map.mp hmem with ⟨q, hq, hEq⟩
      have hqs : 0.7 < q.2.score := by
        have := List.of_mem_filter hq
        simpa using this
      have : q.2.score = p.2.score := by
        have h1 := congrArg ScoreEntry.score hEq
        simpa [mkScoreEntry] using h1
      linarith
    · rw [evaluate_improvements_eq]
      intro hmem
      rcases List.mem_map.mp hmem with ⟨q, hq, hEq⟩
      have hqs : q.2.score < 0.5 := by
        have := List.of_mem_filter hq
        simpa using this
      have : q.2.score = p.2.score := by
        have h1 := congrArg ScoreEntry.score hEq
        simpa [mkScoreEntry] using h1
      linarith
  · intro e ⟨hs, hi⟩
    rw [evaluate_strengths_eq] at hs
    rw [evaluate_improvements_eq] at hi
    rcases List.mem_map.mp hs with ⟨q, hq, hEq⟩
    rcases List.mem_map.mp hi with ⟨q', hq', hEq'⟩
    have hqs : 0.7 < q.2.score := by
      have := List.of_mem_filter hq
      simpa using this
    have hqs' : q'.2.score < 0.5 := by
      have := List.of_mem_filter hq'
      simpa using this
    have : q.2.score = q'.2.score := by
      have h1 := congrArg ScoreEntry.score (hEq.trans hEq'.symm)
      simpa [mkScoreEntry] using h1
    linarith

/-- C5 (amended, witness): on the counterexample text the structure
dimension scores 0.7 ∈ [0.5, 0.7] and is in neither list. -/
theorem claim_C5_amended_witness :
    (("structure", analyzeStructure "a\n\nb\n\nc\n\nd\n\ne" "essay") ∈
      (evaluate "a\n\nb\n\nc\n\nd\n\ne" "essay").dimensions ∧
     0.5 ≤ (analyzeStructure "a\n\nb\n\nc\n\nd\n\ne" "essay").score ∧
     (analyzeStructure "a\n\nb\n\nc\n\nd\n\ne" "essay").score ≤ 0.7) ∧
    (mkScoreEntry "structure" (analyzeStructure "a\n\nb\n\nc\n\nd\n\ne" "essay") ∉
      (evaluate "a\n\nb\n\nc\n\nd\n\ne" "essay").strengths ∧
     mkScoreEntry "structure" (analyzeStructure "a\n\nb\n\nc\n\nd\n\ne" "essay") ∉
      (evaluate "a\n\nb\n\nc\n\nd\n\ne" "essay").areasForImprovement) := by
  have hmem : ("structure", analyzeStructure "a\n\nb\n\nc\n\nd\n\ne" "essay") ∈
      (evaluate "a\n\nb\n\nc\n\nd\n\ne" "essay").dimensions := by
    rw [evaluate_dimensions_eq]
    exact List.mem_cons_self _ _
  have h05 : (0.5 : ℚ) ≤ (analyzeStructure "a\n\nb\n\nc\n\nd\n\ne" "essay").score := by
    with_unfolding_all decide
  have h07 : (analyzeStructure "a\n\nb\n\nc\n\nd\n\ne" "essay").score ≤ 0.7 := by
    with_unfolding_all decide
  exact ⟨⟨hmem, h05, h07⟩,
    (claim_C5_amended "a\n\nb\n\nc\n\nd\n\ne" "essay").2.2.1 _ hmem h05 h07⟩

/-- C9: the report's dimension map always has exactly the key list
`[structure, creativity, accuracy, presentation, clarity, depth]`; the
critical-thinking dimension is never evaluated (the weight table spells
it `criticalThinking` while the registry key is `critical_thinking`),
and the weighted average is renormalized over the remaining total weight
0.80. -/
theorem claim_C9_criticalThinking_skipped (text ty : String) :
    ((evaluate text ty).dimensions.map Prod.fst =
      ["structure", "creativity", "accuracy", "presentation", "clarity", "depth"]) ∧
    "critical_thinking" ∉ (evaluate text ty).dimensions.map Prod.fst ∧
    "criticalThinking" ∉ (evaluate text ty).dimensions.map Prod.fst ∧
    dimensionAnalyzers "criticalThinking" = none ∧
    (((evaluate text ty).dimensions).map (fun p => dimWeight p.1)).sum = 0.80 ∧
    (evaluate text ty).overallScore =
      evalWeightedSum text ty / 0.80 *
        min 1 (((evaluate text ty).wordCount : ℚ) / 150) := by
  refine ⟨?_, ?_, ?_, ?_, ?_, ?_⟩
  · rw [evaluate_dimensions_eq]
    rfl
  · rw [evaluate_dimensions_eq]
    simp
  · rw [evaluate_dimensions_eq]
    simp
  · rfl
  · rw [evalWeights_sum_eq]
    norm_num
  · rw [evaluate_overallScore_eq, evalWeightedSum_eq, evaluate_wordCount_eq]
    norm_num

/-- C10: the evaluate loop never lets a dimension failure escape — with
the per-dimension outcomes abstracted as `run` (`none` = the analyzer was
missing or threw), the function is total, the failed dimension is simply
omitted from the report, its weight is dropped from the renormalization,
and the outer catch converts any internal error into a returned object
with an error field and the default overall score 0.5. -/
theorem claim_C10_failure_isolation :
    (∀ (text : String) (run : String → Option DimResult),
      (evaluateCore text run).dimensions =
        (includedEntries run evalWeights).map (fun e => (e.1, e.2.2)) ∧
      (∀ name, run name = none →
        name ∉ (evaluateCore text run).dimensions.map Prod.fst) ∧
      (evaluateCore text run).overallScore =
        max 0 (min 1
          ((if 0 < ((includedEntries run evalWeights).map (fun e => e.2.1)).sum then
              ((includedEntries run evalWeights).map (fun e => e.2.2.score * e.2.1)).sum /
                ((includedEntries run evalWeights).map (fun e => e.2.1)).sum
            else 0) * min 1 (((jsSplitWs text).length : ℚ) / 150)))) ∧
    (∀ msg, (evaluateCatch msg).overallScore = 0.5 ∧
      (evaluateCatch msg).error = "Failed to evaluate assignment") := by
  constructor
  · intro text run
    refine ⟨?_, ?_, ?_⟩
    · simp [evaluateCore, evalFold_spec]
    · intro name hname hmem
      have : (evaluateCore text run).dimensions =
          (includedEntries run evalWeights).map (fun e => (e.1, e.2.2)) := by
        simp [evaluateCore, evalFold_spec]
      rw [this, List.map_map] at hmem
      rcases List.mem_map.mp hmem with ⟨e, he, hEq⟩
      have hEq' : e.1 = name := by simpa using hEq
      rcases List.mem_filterMap.mp he with ⟨w, _, hw⟩
      rcases Option.map_eq_some'.mp hw with ⟨r, hr, hEq2⟩
      have he1 : e.1 = w.1 := by rw [← hEq2]
      have hcontra : run name = some r := by
        rw [← hEq', he1]
        exact hr
      rw [hname] at hcontra
      exact Option.noConfusion hcontra
    · simp only [evaluateCore, evalFold_spec]
      simp [gt_iff_lt]
  · intro msg
    exact ⟨rfl, rfl⟩

/-- C10 (witness): with every analyzer failing, the report contains no
dimensions at all. -/
theorem claim_C10_witness :
    ((fun _ : String => (none : Option DimResult)) "structure" = none) ∧
    "structure" ∉
      (evaluateCore "x" (fun _ => (none : Option DimResult))).dimensions.map Prod.fst :=
  ⟨rfl, (claim_C10_failure_isolation.1 "x" (fun _ => none)).2.1 "structure" rfl⟩

/-- C8: an assignment type outside the fixed six-name set falls back to
the general handler, which always succeeds with the fixed overall score
0.7. -/
theorem claim_C8_general_fallback (text ty : String) :
    (ty ∉ assignmentTypeNames → analyzeByType text ty = analyzeGeneral text) ∧
    (analyzeGeneral text).overallScore = 0.7 ∧
    (analyzeGeneral text).type = "general" := by
  refine ⟨?_, rfl, rfl⟩
  intro h
  have hnone : assignmentHandlers ty = none := (assignmentHandlers_eq_none_iff ty).mpr h
  simp [analyzeByType, hnone]

/-- C8 (witness): the unknown type `"poem"` is dispatched to the general
handler. -/
theorem claim_C8_witness :
    ("poem" ∉ assignmentTypeNames) ∧
    analyzeByType "some text" "poem" = analyzeGeneral "some text" ∧
    (analyzeGeneral "some text").overallScore = 0.7 :=
  ⟨by decide, (claim_C8_general_fallback "some text" "poem").1 (by decide),
    (claim_C8_general_fallback "some text" "poem").2.1⟩

/-- C7: grammar detection flags, per non-empty sentence piece, a
capitalization issue exactly when the first character of the trimmed
piece differs from its uppercase, and a run-on issue exactly when the
piece has more than 30 whitespace-delimited tokens; each issue carries
the 1-based index of its originating piece of the `[.!?]+` split, issues
appear in sentence order, and on the concrete two-sentence lowercase text
the result is exactly the capitalization issues for sentences 1 and 2. -/
theorem claim_C7_grammar_issues :
    (∀ text : String, identifyGrammarIssues text =
      ((jsSplitSent text).enum.map (fun p => sentenceIssues (p.1 + 1) p.2)).flatten) ∧
    (∀ text : String,
      ((identifyGrammarIssues text).map GrammarIssue.sentence).Sorted (· ≤ ·)) ∧
    (∀ (text : String) (i : ℕ),
      capIssue i ∈ identifyGrammarIssues text ↔
        ∃ s, 1 ≤ i ∧ (jsSplitSent text).get? (i - 1) = some s ∧
          (jsTrim s).length ≠ 0 ∧ firstCharNotCapitalized (jsTrim s) = true) ∧
    (∀ (text : String) (i : ℕ),
      runOnIssue i ∈ identifyGrammarIssues text ↔
        ∃ s, 1 ≤ i ∧ (jsSplitSent text).get? (i - 1) = some s ∧
          (jsTrim s).length ≠ 0 ∧ 30 < (splitRuns jsIsWs (jsTrim s)).length) ∧
    identifyGrammarIssues "this is a test. this sentence has no capital letter." =
      [capIssue 1, capIssue 2] := by
  have hmem : ∀ (text : String) (g : GrammarIssue),
      g ∈ identifyGrammarIssues text ↔
        ∃ p : ℕ × List Char, (jsSplitSent text).get? p.1 = some p.2 ∧
          g ∈ sentenceIssues (p.1 + 1) p.2 := by
    intro text g
    rw [identifyGrammarIssues_eq_flatten]
    constructor
    · intro h
      rcases List.mem_flatten.mp h with ⟨t, ht, hg⟩
      rcases List.mem_map.mp ht with ⟨p, hp, rfl⟩
      exact ⟨p, List.mem_enum_iff_get?.mp hp, hg⟩
    · intro ⟨p, hp, hg⟩
      exact List.mem_flatten.mpr ⟨sentenceIssues (p.1 + 1) p.2,
        List.mem_map.mpr ⟨p, List.mem_enum_iff_get?.mpr hp, rfl⟩, hg⟩
  refine ⟨identifyGrammarIssues_eq_flatten, identifyGrammarIssues_sorted, ?_, ?_, ?_⟩
  · intro text i
    rw [hmem]
    constructor
    · intro ⟨p, hp, hg⟩
      rw [mem_sentenceIssues_cap] at hg
      obtain ⟨hij, hne, hcap⟩ := hg
      refine ⟨p.2, by omega, ?_, hne, hcap⟩
      have : i - 1 = p.1 := by omega
      rw [this]
      exact hp
    · intro ⟨s, h1, hget, hne, hcap⟩
      refine ⟨(i - 1, s), hget, ?_⟩
      rw [mem_sentenceIssues_cap]
      exact ⟨by omega, hne, hcap⟩
  · intro text i
    rw [hmem]
    constructor
    · intro ⟨p, hp, hg⟩
      rw [mem_sentenceIssues_runOn] at hg
      obtain ⟨hij, hne, hrun⟩ := hg
      refine ⟨p.2, by omega, ?_, hne, hrun⟩
      have : i - 1 = p.1 := by omega
      rw [this]
      exact hp
    · intro ⟨s, h1, hget, hne, hrun⟩
      refine ⟨(i - 1, s), hget, ?_⟩
      rw [mem_sentenceIssues_runOn]
      exact ⟨by omega, hne, hrun⟩
  · with_unfolding_all decide

/-- C7 (witness): the capitalization-issue characterization instantiated
on the concrete text at sentence 1. -/
theorem claim_C7_witness :
    capIssue 1 ∈
      identifyGrammarIssues "this is a test. this sentence has no capital letter." :=
  (claim_C7_grammar_issues.2.2.1
      "this is a test. this sentence has no capital letter." 1).mpr
    ⟨"this is a test".data, by decide, by decide, by decide, by decide⟩

/-- C6 (counterexample): on the empty text the word count is 0 and no
exception arises, but the derived ratios are the JS `NaN` (modelled
`none`), not 0, and the vocabulary diversity is not a number in `[0,1]`
— refuting the claim that every derived ratio defaults to 0 when its
denominator is 0. -/
theorem claim_C6_counterexample :
    (analyzeText sentimentZero "").wordCount = 0 ∧
    (analyzeText sentimentZero "").avgWordsPerSentence ≠ some 0 ∧
    (analyzeText sentimentZero "").avgWordsPerSentence = none ∧
    (analyzeText sentimentZero "").vocabulary.diversity = none ∧
    ¬ optInUnit ((analyzeText sentimentZero "").vocabulary.diversity) := by
  have h1 : (analyzeText sentimentZero "").wordCount = 0 := by with_unfolding_all decide
  have h2 : (analyzeText sentimentZero "").avgWordsPerSentence = none := by
    with_unfolding_all decide
  have h3 : (analyzeText sentimentZero "").vocabulary.diversity = none := by
    with_unfolding_all decide
  refine ⟨h1, ?_, h2, h3, ?_⟩
  · rw [h2]
    simp
  · rw [h3]
    simp [optInUnit]

/-- C6 (amended): for whitespace-only (including empty) text,
`analyzeText` returns zero word/sentence/paragraph counts without
raising any error, but the derived ratios are the non-finite JS value
(modelled `none`), not 0; and the vocabulary diversity is a number in
`[0, 1]` whenever the text has at least one word. -/
theorem claim_C6_amended (sa : String → SentimentResult) (text : String) :
    ((jsTrim text.data).length = 0 →
      (analyzeText sa text).wordCount = 0 ∧
      (analyzeText sa text).sentenceCount = 0 ∧
      (analyzeText sa text).paragraphCount = 0 ∧
      (analyzeText sa text).avgWordsPerSentence = none ∧
      (analyzeText sa text).avgWordsPerParagraph = none ∧
      (analyzeText sa text).readabilityScore = none ∧
      (analyzeText sa text).vocabulary.diversity = none) ∧
    (0 < (analyzeText sa text).wordCount →
      optInUnit ((analyzeText sa text).vocabulary.diversity)) := by
  constructor
  · intro h
    have hws : ∀ c ∈ text.data, jsIsWs c = true :=
      (jsTrim_eq_nil_iff text.data).mp (List.length_eq_zero.mp h)
    have hw : jsWords text = [] := jsWords_eq_nil_of_ws text hws
    have hs : jsSentences text = [] := jsSentences_eq_nil_of_ws text hws
    have hp : (jsSplitPara text).filter (fun p => (jsTrim p).length ≠ 0) = [] :=
      jsSplitPara_filter_eq_nil_of_ws text hws
    have hp' : ∀ a ∈ jsSplitPara text, jsTrim a = [] := by
      intro a ha
      have := List.filter_eq_nil_iff.mp hp a ha
      simp only [ne_eq, decide_not, Bool.not_eq_true', decide_eq_false_iff_not,
        not_not] at this
      exact List.length_eq_zero.mp this
    refine ⟨?_, ?_, ?_, ?_, ?_, ?_, ?_⟩ <;>
      (first
        | (simp [analyzeText, hw, hs, hp, jsDiv, optRoundTo2, analyzeVocabulary,
            calculateAvgSyllables]
           try exact hp')
        | exact hp')
  · intro h
    have hlen : (analyzeText sa text).wordCount = (jsWords text).length := rfl
    have hpos : 0 < (jsWords text).length := by
      rw [← hlen]
      exact h
    have hdiv : (analyzeText sa text).vocabulary.diversity =
        some (roundTo2 ((((jsWords text).map jsToLower).dedup.length : ℚ) /
          ((jsWords text).length : ℚ))) := by
      simp only [analyzeText, analyzeVocabulary, optRoundTo2, jsDiv]
      rw [if_neg (by exact_mod_cast Nat.pos_iff_ne_zero.mp hpos)]
      simp
    rw [hdiv]
    have hle : (((jsWords text).map jsToLower).dedup.length : ℚ) /
        ((jsWords text).length : ℚ) ≤ 1 := by
      rw [div_le_one (by exact_mod_cast hpos)]
      have h1 : (((jsWords text).map jsToLower).dedup).length ≤
          ((jsWords text).map jsToLower).length :=
        (List.dedup_sublist _).length_le
      have h2 : ((jsWords text).map jsToLower).length = (jsWords text).length :=
        List.length_map _ _
      exact_mod_cast h1.trans (le_of_eq h2)
    have hge : (0 : ℚ) ≤ (((jsWords text).map jsToLower).dedup.length : ℚ) /
        ((jsWords text).length : ℚ) := by positivity
    obtain ⟨hb0, hb1⟩ := roundTo2_mem_unit hge hle
    exact ⟨_, rfl, hb0, hb1⟩

/-- C6 (amended, witness): instantiated on whitespace-only `"  "` and on
the two-word text `"a b"`. -/
theorem claim_C6_witness :
    ((jsTrim "  ".data).length = 0 ∧
      (analyzeText sentimentZero "  ").wordCount = 0 ∧
      (analyzeText sentimentZero "  ").avgWordsPerSentence = none) ∧
    (0 < (analyzeText sentimentZero "a b").wordCount ∧
      optInUnit ((analyzeText sentimentZero "a b").vocabulary.diversity)) := by
  have h1 : (jsTrim "  ".data).length = 0 := by decide
  have h2 : 0 < (analyzeText sentimentZero "a b").wordCount := by
    with_unfolding_all decide
  have hA := (claim_C6_amended sentimentZero "  ").1 h1
  have hB := (claim_C6_amended sentimentZero "a b").2 h2
  exact ⟨⟨h1, hA.1, hA.2.2.2.1⟩, ⟨h2, hB⟩⟩

/-- C1 (counterexample): on the empty file list the bulk processor does
not return an (empty) result list per input file — it throws — so the
claim does not hold for *every* sequence of input files. -/
theorem claim_C1_counterexample :
    processBulkAssignments sentimentZero [] ⟨none, none⟩ =
      .error "No files provided for processing" := rfl

/-- C1 (amended): for every NON-EMPTY file sequence, the bulk processor
returns exactly one result per input file, in input order; a failing
file is recorded as a `status: 'error'` entry carrying the error message
and processing continues, and a file whose extracted content is
empty/whitespace-only yields an error entry whose message contains
`"empty"`. -/
theorem claim_C1_batch_isolation (sa : String → SentimentResult)
    (files : List JsFile) (opts : ProcessOptions) (hne : files ≠ []) :
    ∃ rs, processBulkAssignments sa files opts = .ok rs ∧
      rs.length = files.length ∧
      (∀ (i : ℕ) (f : JsFile), files.get? i = some f →
        ∃ r, rs.get? i = some r ∧
          r.fileName = fileInfoName f i ∧
          ((∃ m, processSingleAssignment sa f opts = .error m ∧
              r.status = "error" ∧ r.error = some m ∧ r.analysis = none) ∨
           (∃ a, processSingleAssignment sa f opts = .ok a ∧
              r.status = "success" ∧ r.analysis = some a ∧ r.error = none)) ∧
          ((jsTrim (extractTextContent f).data).length = 0 →
            r.status = "error" ∧
            ∃ m, r.error = some m ∧ strIncludes m "empty" = true)) := by
  refine ⟨files.enum.map (fun p => processBulkStep sa opts p.1 p.2), ?_, by simp, ?_⟩
  · rw [processBulkAssignments, if_neg]
    simpa using hne
  · intro i f hget
    have henum : files.enum.get? i = some (i, f) := by
      rw [List.enum_get?, hget]
      rfl
    refine ⟨processBulkStep sa opts i f, ?_, ?_, ?_, ?_⟩
    · rw [List.get?_map, henum]
      rfl
    · rcases hps : processSingleAssignment sa f opts with m | a <;>
        simp [processBulkStep, hps]
    · rcases hps : processSingleAssignment sa f opts with m | a
      · exact Or.inl ⟨m, rfl, by simp [processBulkStep, hps]⟩
      · exact Or.inr ⟨a, rfl, by simp [processBulkStep, hps]⟩
    · intro hempty
      have herr : processSingleAssignment sa f opts =
          .error "Could not process file: File appears to be empty" := by
        rw [processSingleAssignment]
        rw [if_pos (Or.inr hempty)]
      constructor
      · simp [processBulkStep, herr]
      · refine ⟨"Could not process file: File appears to be empty",
          by simp [processBulkStep, herr], by decide⟩

/-- C1 (amended, witness): a concrete three-file batch whose middle file
is empty. -/
theorem claim_C1_witness :
    (([⟨none, some "a.txt", some "Good work. It is fine.", none⟩,
       ⟨none, some "b.txt", some "", none⟩,
       ⟨none, some "c.txt", some "Nice try there.", none⟩] : List JsFile) ≠ []) ∧
    (∃ rs, processBulkAssignments sentimentZero
        [⟨none, some "a.txt", some "Good work. It is fine.", none⟩,
         ⟨none, some "b.txt", some "", none⟩,
         ⟨none, some "c.txt", some "Nice try there.", none⟩] ⟨none, none⟩ = .ok rs ∧
      rs.length = 3 ∧
      (∀ (i : ℕ) (f : JsFile),
        ([⟨none, some "a.txt", some "Good work. It is fine.", none⟩,
          ⟨none, some "b.txt", some "", none⟩,
          ⟨none, some "c.txt", some "Nice try there.", none⟩] : List JsFile).get? i =
            some f →
        ∃ r, rs.get? i = some r ∧
          r.fileName = fileInfoName f i ∧
          ((∃ m, processSingleAssignment sentimentZero f ⟨none, none⟩ = .error m ∧
              r.status = "error" ∧ r.error = some m ∧ r.analysis = none) ∨
           (∃ a, processSingleAssignment sentimentZero f ⟨none, none⟩ = .ok a ∧
              r.status = "success" ∧ r.analysis = some a ∧ r.error = none)) ∧
          ((jsTrim (extractTextContent f).data).length = 0 →
            r.status = "error" ∧
            ∃ m, r.error = some m ∧ strIncludes m "empty" = true))) := by
  constructor
  · decide
  · exact claim_C1_batch_isolation sentimentZero _ ⟨none, none⟩ (by decide)

/-- C3: the claim is right and the code is wrong — the spec and the
repository's own test expect an empty input to yield an empty result
list, but `processBulkAssignments` throws `'No files provided for
processing'` on the empty list (its guard also rejects `files.length
=== 0`, not only a non-array argument). -/
theorem claim_C3_empty_batch_throws (sa : String → SentimentResult)
    (opts : ProcessOptions) :
    processBulkAssignments sa [] opts = .error "No files provided for processing" := rfl

/-- The 150-word text used to discharge the no-penalty hypothesis of the
length-penalty claim. -/
def longText : String := String.mk ((List.replicate 150 ['w', ' ']).flatten)

/-- C2 (witness): instantiated at a 150-word text (no penalty) and at a
short text (linear penalty). -/
theorem claim_C2_witness :
    (150 ≤ (evaluate longText "essay").wordCount ∧
      (evaluate longText "essay").overallScore = evalWeightedAverage longText "essay") ∧
    ((evaluate "short text" "essay").wordCount ≤ 150 ∧
      (evaluate "short text" "essay").overallScore =
        evalWeightedAverage "short text" "essay" *
          ((evaluate "short text" "essay").wordCount : ℚ) / 150) := by
  have h1 : 150 ≤ (evaluate longText "essay").wordCount := by with_unfolding_all decide
  have h2 : (evaluate "short text" "essay").wordCount ≤ 150 := by
    with_unfolding_all decide
  exact ⟨⟨h1, (claim_C2_length_penalty longText "essay").2.1 h1⟩,
    ⟨h2, (claim_C2_length_penalty "short text" "essay").2.2 h2⟩⟩

/-- C4 (witness): instantiated at the known dimension `"structure"` and
the unknown dimension `"not_a_real_dimension"`. -/
theorem claim_C4_witness :
    ("structure" ∈ dimensionNames ∧
      ∃ r, evaluateDimension "hi" "structure" "essay" = .ok r ∧
        0 ≤ r.score ∧ r.score ≤ 1) ∧
    ("not_a_real_dimension" ∉ dimensionNames ∧
      evaluateDimension "hi" "not_a_real_dimension" "essay" =
        .error "Unknown evaluation dimension: not_a_real_dimension") :=
  ⟨⟨by decide, (claim_C4_evaluateDimension "hi" "structure" "essay").2.2 (by decide)⟩,
   ⟨by decide, (claim_C4_evaluateDimension "hi" "not_a_real_dimension" "essay").2.1
      (by decide)⟩⟩
